import Mathlib

/-
  Verification development for the catalist-type-conversion-notebook
  repository: a shallow embedding of the two conversion pipelines
  (the single-file emitter of notebooks/MAP_Migration_Pipeline.ipynb and
  the bundle emitter of catalist-type-converter.ipynb), together with
  proofs about the row converters, the bucket writer and the manifest.

  Modelling conventions:
  * Python scalar and JSON-like values are modelled by the inductive `Py`.
    A pandas cell read from the CSV is one of: a string, a checkbox
    boolean, the float NaN (what pandas stores for a blank cell), or an
    integer (non-NaN numeric cells are modelled as integers, their
    fractional part never matters here).
  * A row is an association list from column names to cell values;
    `rowGet` models `row.get(col, default)` and `rowItem` models
    `row[col]` (which raises `KeyError` when the column is missing).
  * Code that can raise a Python exception is modelled in
    `Except String`, the error string naming the exception.
-/

inductive Py where
  | none
  | bool (b : Bool)
  | int (n : Int)
  | nan
  | str (s : String)
  | list (xs : List Py)
  | dict (fs : List (String × Py))

/-
  Decidable equality for `Py`: the nested inductive rules out automatic
  derivation, and the mutual structural definition keeps it reducible.
-/
mutual

def pyDecEq : (a b : Py) → Decidable (a = b)
  | .none, .none => .isTrue rfl
  | .bool a, .bool b =>
      match decEq a b with
      | .isTrue h => .isTrue (by rw [h])
      | .isFalse h => .isFalse (fun hh => h (by cases hh; rfl))
  | .int a, .int b =>
      match decEq a b with
      | .isTrue h => .isTrue (by rw [h])
      | .isFalse h => .isFalse (fun hh => h (by cases hh; rfl))
  | .nan, .nan => .isTrue rfl
  | .str a, .str b =>
      match decEq a b with
      | .isTrue h => .isTrue (by rw [h])
      | .isFalse h => .isFalse (fun hh => h (by cases hh; rfl))
  | .list xs, .list ys =>
      match pyDecEqList xs ys with
      | .isTrue h => .isTrue (by rw [h])
      | .isFalse h => .isFalse (fun hh => h (Py.list.inj hh))
  | .dict fs, .dict gs =>
      match pyDecEqFields fs gs with
      | .isTrue h => .isTrue (by rw [h])
      | .isFalse h => .isFalse (fun hh => h (Py.dict.inj hh))
  | .none, .bool _ => .isFalse (fun h => by cases h)
  | .none, .int _ => .isFalse (fun h => by cases h)
  | .none, .nan => .isFalse (fun h => by cases h)
  | .none, .str _ => .isFalse (fun h => by cases h)
  | .none, .list _ => .isFalse (fun h => by cases h)
  | .none, .dict _ => .isFalse (fun h => by cases h)
  | .bool _, .none => .isFalse (fun h => by cases h)
  | .bool _, .int _ => .isFalse (fun h => by cases h)
  | .bool _, .nan => .isFalse (fun h => by cases h)
  | .bool _, .str _ => .isFalse (fun h => by cases h)
  | .bool _, .list _ => .isFalse (fun h => by cases h)
  | .bool _, .dict _ => .isFalse (fun h => by cases h)
  | .int _, .none => .isFalse (fun h => by cases h)
  | .int _, .bool _ => .isFalse (fun h => by cases h)
  | .int _, .nan => .isFalse (fun h => by cases h)
  | .int _, .str _ => .isFalse (fun h => by cases h)
  | .int _, .list _ => .isFalse (fun h => by cases h)
  | .int _, .dict _ => .isFalse (fun h => by cases h)
  | .nan, .none => .isFalse (fun h => by cases h)
  | .nan, .bool _ => .isFalse (fun h => by cases h)
  | .nan, .int _ => .isFalse (fun h => by cases h)
  | .nan, .str _ => .isFalse (fun h => by cases h)
  | .nan, .list _ => .isFalse (fun h => by cases h)
  | .nan, .dict _ => .isFalse (fun h => by cases h)
  | .str _, .none => .isFalse (fun h => by cases h)
  | .str _, .bool _ => .isFalse (fun h => by cases h)
  | .str _, .int _ => .isFalse (fun h => by cases h)
  | .str _, .nan => .isFalse (fun h => by cases h)
  | .str _, .list _ => .isFalse (fun h => by cases h)
  | .str _, .dict _ => .isFalse (fun h => by cases h)
  | .list _, .none => .isFalse (fun h => by cases h)
  | .list _, .bool _ => .isFalse (fun h => by cases h)
  | .list _, .int _ => .isFalse (fun h => by cases h)
  | .list _, .nan => .isFalse (fun h => by cases h)
  | .list _, .str _ => .isFalse (fun h => by cases h)
  | .list _, .dict _ => .isFalse (fun h => by cases h)
  | .dict _, .none => .isFalse (fun h => by cases h)
  | .dict _, .bool _ => .isFalse (fun h => by cases h)
  | .dict _, .int _ => .isFalse (fun h => by cases h)
  | .dict _, .nan => .isFalse (fun h => by cases h)
  | .dict _, .str _ => .isFalse (fun h => by cases h)
  | .dict _, .list _ => .isFalse (fun h => by cases h)

def pyDecEqList : (xs ys : List Py) → Decidable (xs = ys)
  | [], [] => .isTrue rfl
  | [], _ :: _ => .isFalse (fun h => by cases h)
  | _ :: _, [] => .isFalse (fun h => by cases h)
  | x :: xs, y :: ys =>
      match pyDecEq x y, pyDecEqList xs ys with
      | .isTrue h1, .isTrue h2 => .isTrue (by rw [h1, h2])
      | .isFalse h1, _ => .isFalse (fun hh => h1 (List.cons.inj hh).1)
      | _, .isFalse h2 => .isFalse (fun hh => h2 (List.cons.inj hh).2)

def pyDecEqFields : (fs gs : List (String × Py)) → Decidable (fs = gs)
  | [], [] => .isTrue rfl
  | [], _ :: _ => .isFalse (fun h => by cases h)
  | _ :: _, [] => .isFalse (fun h => by cases h)
  | (k, v) :: fs, (k', v') :: gs =>
      match decEq k k', pyDecEq v v', pyDecEqFields fs gs with
      | .isTrue hk, .isTrue hv, .isTrue ht => .isTrue (by rw [hk, hv, ht])
      | .isFalse hk, _, _ =>
          .isFalse (fun hh => hk (congrArg (fun p => p.1) (List.cons.inj hh).1))
      | _, .isFalse hv, _ =>
          .isFalse (fun hh => hv (congrArg (fun p => p.2) (List.cons.inj hh).1))
      | _, _, .isFalse ht => .isFalse (fun hh => ht (List.cons.inj hh).2)

end

instance : DecidableEq Py := pyDecEq

instance {ε α : Type} [DecidableEq ε] [DecidableEq α] :
    DecidableEq (Except ε α)
  | .ok a, .ok b =>
      match decEq a b with
      | .isTrue h => .isTrue (by rw [h])
      | .isFalse h => .isFalse (fun hh => h (by cases hh; rfl))
  | .error a, .error b =>
      match decEq a b with
      | .isTrue h => .isTrue (by rw [h])
      | .isFalse h => .isFalse (fun hh => h (by cases hh; rfl))
  | .ok _, .error _ => .isFalse (fun h => by cases h)
  | .error _, .ok _ => .isFalse (fun h => by cases h)

/-
  Character-level models of the Python string operations the notebooks
  use (`strip`, `lower`, `split(",")`, `int(...)`, `endswith`).  They
  are written by structural recursion on the character list so that
  concrete runs reduce definitionally.
-/

/-- The whitespace characters `str.strip()` removes (the ASCII ones;
the CSV contains no exotic whitespace). -/
def pySpace (c : Char) : Bool :=
  c == ' ' || c == '\t' || c == '\n' || c == '\r'

/-- Python `s.strip()`. -/
def pyStripStr (s : String) : String :=
  ⟨((s.data.dropWhile pySpace).reverse.dropWhile pySpace).reverse⟩

/-- ASCII lower-casing of one character (Python `str.lower` restricted
to the ASCII names appearing in this data). -/
def charLower (c : Char) : Char :=
  if 65 ≤ c.toNat ∧ c.toNat ≤ 90 then Char.ofNat (c.toNat + 32) else c

/-- Python `s.lower()`. -/
def pyLowerStr (s : String) : String :=
  ⟨s.data.map charLower⟩

/-- Helper for `pySplitComma`: accumulate the current chunk (reversed). -/
def splitCommaAux : List Char → List Char → List String
  | [], acc => [⟨acc.reverse⟩]
  | c :: cs, acc =>
      if c == ',' then ⟨acc.reverse⟩ :: splitCommaAux cs []
      else splitCommaAux cs (c :: acc)

/-- Python `s.split(",")`; in particular `"".split(",") == [""]`. -/
def pySplitComma (s : String) : List String :=
  splitCommaAux s.data []

/-- Digit-string value, `Option.none` on an empty or non-digit list. -/
def digitsVal : List Char → Option Nat
  | [] => Option.none
  | cs => digitsValAux cs 0
where
  digitsValAux : List Char → Nat → Option Nat
  | [], acc => some acc
  | c :: cs, acc =>
      if c.isDigit then digitsValAux cs (acc * 10 + (c.toNat - 48))
      else Option.none

/-- Python `int(s)` on a string: optional surrounding whitespace,
optional sign, at least one digit; anything else raises. -/
def pyIntOfStr (s : String) : Option Int :=
  match (pyStripStr s).data with
  | '-' :: rest => (digitsVal rest).map (fun n => -(n : Int))
  | '+' :: rest => (digitsVal rest).map (fun n => (n : Int))
  | t => (digitsVal t).map (fun n => (n : Int))

/-- Python `s.endswith(suffix)`. -/
def strEndsWith (s suf : String) : Bool :=
  s.data.reverse.take suf.data.length == suf.data.reverse

/-- Python truthiness (`bool(v)`); note that the float NaN is truthy. -/
def truthy : Py → Bool
  | .none => false
  | .bool b => b
  | .int n => n != 0
  | .nan => true
  | .str s => s != ""
  | .list xs => !xs.isEmpty
  | .dict fs => !fs.isEmpty

/-- Python `str(v)` on the scalar values the notebooks feed to it
(`str(float("nan"))` is `"nan"`).  The converters never stringify a
list or a dict; those cases are given a placeholder result. -/
def pyStrVal : Py → String
  | .none => "None"
  | .bool b => if b then "True" else "False"
  | .int n => toString n
  | .nan => "nan"
  | .str s => s
  | .list _ => "<list>"
  | .dict _ => "<dict>"

/-- Python `x or y`: returns `x` when `x` is truthy, else `y`. -/
def pyOr (x y : Py) : Py := if truthy x then x else y

/-- `pd.isna`, which is true exactly on NaN and None for scalar cells. -/
def pd_isna : Py → Bool
  | .nan => true
  | .none => true
  | _ => false

/-- `bool_norm` from both notebooks:
`bool(val) if isinstance(val, bool) else str(val).strip().lower() == "checked"`. -/
def bool_norm : Py → Bool
  | .bool b => b
  | v => pyLowerStr (pyStripStr (pyStrVal v)) == "checked"

abbrev Row := List (String × Py)

/-- First-match association-list lookup (Python dict lookup; the dicts
built by the notebooks never repeat a key). -/
def alookup : List (String × Py) → String → Option Py
  | [], _ => Option.none
  | (k, v) :: fs, key => if k == key then some v else alookup fs key

/-- `row.get(col, default)` on a pandas row. -/
def rowGet (row : Row) (col : String) (dflt : Py) : Py :=
  match alookup row col with
  | some v => v
  | Option.none => dflt

/-- `row[col]` on a pandas row: `KeyError` when the column is missing. -/
def rowItem (row : Row) (col : String) : Except String Py :=
  match alookup row col with
  | some v => .ok v
  | Option.none => .error ("KeyError: " ++ col)

/-- Field lookup on an embedded dict value (`d[k]` read as an Option). -/
def dget (d : Py) (k : String) : Option Py :=
  match d with
  | .dict fs => alookup fs k
  | _ => Option.none

/-- Python `v.strip()`: defined on strings only, `AttributeError`
otherwise (in particular on the float NaN of a blank cell). -/
def pyStrip : Py → Except String Py
  | .str s => .ok (.str (pyStripStr s))
  | _ => .error "AttributeError: strip"

/-- Python `int(v)`: `ValueError` on NaN and on non-numeric strings. -/
def pyInt : Py → Except String Int
  | .int n => .ok n
  | .bool b => .ok (if b then 1 else 0)
  | .str s =>
      match pyIntOfStr s with
      | some n => .ok n
      | Option.none => .error "ValueError: invalid literal for int()"
  | .nan => .error "ValueError: cannot convert float NaN to integer"
  | _ => .error "TypeError: int() argument"

/-- Python `v.lower()`: defined on strings only. -/
def pyLower : Py → Except String String
  | .str s => .ok (pyLowerStr s)
  | _ => .error "AttributeError: lower"

/-- The list-cell comprehension used by both notebooks:
`[p.strip() for p in s.split(",") if p.strip()]`. -/
def strip_split (s : String) : List String :=
  (pySplitComma s).filterMap (fun p =>
    if pyStripStr p == "" then Option.none else some (pyStripStr p))

/-- The `ref` helper, identical in both notebooks: build a structured
`$ref` object, including the `schema` and `space` keys only when the
corresponding argument is truthy. -/
def ref (type_name : Py) (schema : Py) (space : Py) : Py :=
  .dict [("$ref", .dict
    ([("type_name", type_name)]
      ++ (if truthy schema then [("schema", schema)] else [])
      ++ (if truthy space then [("space", space)] else [])))]

/-- `common_header`, identical in both notebooks (the bundle notebook
even defines it twice, verbatim): the fields shared by every
descriptor's spec. -/
def common_header (row : Row) (descriptor_name : String) :
    Except String (List (String × Py)) :=
  match rowItem row "TypeKind" with
  | .error e => .error e
  | .ok tk => .ok
      [("descriptor_name", .str descriptor_name),
       ("label", pyOr (rowGet row "Label (Human Readable)" (.str "")) (.str "")),
       ("description", pyOr (rowGet row "Description" (.str "")) (.str "")),
       ("is_dependent", .bool (bool_norm (rowGet row "Is Dependent" (.bool false)))),
       ("is_value_type", .bool (bool_norm (rowGet row "Is ValueType" (.bool false)))),
       ("described_by", ref tk .none .none),
       ("is_subtype_of", .none)]

/-- `SCHEMA_INFO["type_name"]` of the single-file notebook. -/
def SCHEMA_INFO_type_name : String := "CatalistSchema"

/-- `default_schema["type_name"]` of the bundle notebook. -/
def default_schema_type_name : String := "CatalistSchema"

/-- The `TYPEKINDS` / `TYPEKINDS_TO_EXPORT` configuration list
(identical in both notebooks). -/
def TYPEKINDS : List String :=
  ["HolonType", "PropertyType", "ValueType",
   "EnumType", "EnumVariantType", "RelationshipType"]

namespace Single

/-- `row_to_holontype` of the single-file notebook. -/
def row_to_holontype (row : Row) : Except String Py :=
  match rowItem row "Type Name" with
  | .error e => .error e
  | .ok type_name =>
    match common_header row (pyStrVal type_name ++ "Descriptor") with
    | .error e => .error e
    | .ok hdr =>
      let props := rowGet row "MAP PROPERTIES PropertyTypes" (.str "")
      let keyp := rowGet row "MAP KEY_PROPERTIES PropertyTypes" (.str "")
      let spec := hdr ++
        [("properties",
          if pd_isna props then .list []
          else .list ((strip_split (pyStrVal props)).map Py.str)),
         ("key_properties",
          if pd_isna keyp then .list []
          else .list ((strip_split (pyStrVal keyp)).map Py.str)),
         ("type_name", type_name)]
      .ok (.dict
        [("type_name", type_name),
         ("type_kind", .str "Holon"),
         ("described_by", ref (.str "HolonType") .none .none),
         ("spec", .dict spec)])

/-- `row_to_propertytype` of the single-file notebook: `value_type` is
always `ref(cell.strip())`, even when the cell is blank. -/
def row_to_propertytype (row : Row) : Except String Py :=
  match rowItem row "Type Name" with
  | .error e => .error e
  | .ok type_name =>
    match common_header row (pyStrVal type_name ++ "_descriptor") with
    | .error e => .error e
    | .ok hdr =>
      match pyStrip (rowGet row "ValueType (VALUE_TYPE_FOR)" (.str "")) with
      | .error e => .error e
      | .ok sv =>
        let spec := hdr ++
          [("property_name", type_name),
           ("value_type", ref sv .none .none)]
        .ok (.dict
          [("type_name", type_name),
           ("type_kind", .str "Property"),
           ("described_by", ref (.str "PropertyType") .none .none),
           ("spec", .dict spec)])

/-- The per-pair body of `row_to_relationshiptype`'s
`for src, tgt in itertools.product(froms, tos)` loop in the
single-file notebook. -/
def rel_loop (row : Row) (rel_name : Py) (source_owns : Bool)
    (deletion_sem : Py) (load_links load_holons : Bool) (has_inverse : Py)
    (target_min target_max : Int) (target_sem : Py) :
    List (String × String) → Except String (List Py)
  | [] => .ok []
  | (src, tgt) :: rest =>
    let type_name := src ++ "-" ++ pyStrVal rel_name ++ "->" ++ tgt
    match common_header row (type_name ++ "Descriptor") with
    | .error e => .error e
    | .ok hdr =>
      let spec := hdr ++
        [("relationship_name", rel_name),
         ("source_owns_relationship", .bool source_owns),
         ("deletion_semantic", deletion_sem),
         ("load_links_immediate", .bool load_links),
         ("load_holons_immediate", .bool load_holons),
         ("has_inverse",
          if truthy has_inverse then ref has_inverse .none .none else .none),
         ("target_holon_type", ref (.str tgt) (.str SCHEMA_INFO_type_name) .none),
         ("target_semantic", target_sem),
         ("target_min_cardinality", .int target_min),
         ("target_max_cardinality", .int target_max)]
      match rel_loop row rel_name source_owns deletion_sem load_links
          load_holons has_inverse target_min target_max target_sem rest with
      | .error e => .error e
      | .ok outs => .ok (.dict
          [("type_name", .str type_name),
           ("type_kind", .str "Relationship"),
           ("described_by", ref (.str "RelationshipType") .none .none),
           ("spec", .dict spec)] :: outs)

/-- `row_to_relationshiptype` of the single-file notebook: the
flattening cross-product expander. -/
def row_to_relationshiptype (row : Row) : Except String (List Py) :=
  match rowItem row "Type Name" with
  | .error e => .error e
  | .ok rel_name =>
    let source_owns := bool_norm (rowGet row "Source Owns Relationship" (.bool false))
    let ds := rowGet row "Deletion Semantic" .none
    let deletion_sem :=
      if pd_isna ds || pyStripStr (pyStrVal ds) == "" then Py.none else ds
    let load_links := bool_norm (rowGet row "Load Links Immediate" (.bool false))
    let load_holons := bool_norm (rowGet row "Load Holons Immediate" (.bool false))
    let has_inverse := pyOr (rowGet row "Has Inverse" (.str "")) .none
    match pyInt (pyOr (rowGet row "Target Min Cardinality" .none) (.int 0)) with
    | .error e => .error e
    | .ok target_min =>
      match pyInt (pyOr (rowGet row "Target Max Cardinality" .none) (.int 1)) with
      | .error e => .error e
      | .ok target_max =>
        let target_sem := rowGet row "Target Semantic" (.str "Set")
        let froms := strip_split (pyStrVal (rowGet row "Relationship From" (.str "")))
        let tos := strip_split (pyStrVal (rowGet row "Relationship To" (.str "")))
        rel_loop row rel_name source_owns deletion_sem load_links load_holons
          has_inverse target_min target_max target_sem
          (froms.flatMap (fun src => tos.map (fun tgt => (src, tgt))))

end Single

namespace Bundle

/-- `row_to_holontype` of the bundle notebook; it differs from the
single-file one only in the wrapper: `type_kind` is `"HolonType"` and
is listed first. -/
def row_to_holontype (row : Row) : Except String Py :=
  match rowItem row "Type Name" with
  | .error e => .error e
  | .ok name =>
    match common_header row (pyStrVal name ++ "Descriptor") with
    | .error e => .error e
    | .ok hdr =>
      let raw := rowGet row "MAP PROPERTIES PropertyTypes" (.str "")
      let rawk := rowGet row "MAP KEY_PROPERTIES PropertyTypes" (.str "")
      let spec := hdr ++
        [("properties",
          if pd_isna raw then .list []
          else .list ((strip_split (pyStrVal raw)).map Py.str)),
         ("key_properties",
          if pd_isna rawk then .list []
          else .list ((strip_split (pyStrVal rawk)).map Py.str)),
         ("type_name", name)]
      .ok (.dict
        [("type_kind", .str "HolonType"),
         ("type_name", name),
         ("described_by", ref (.str "HolonType") .none .none),
         ("spec", .dict spec)])

/-- `row_to_propertytype` of the bundle notebook: `value_type` is a
reference only when the stripped cell is non-empty, else `None`. -/
def row_to_propertytype (row : Row) : Except String Py :=
  match rowItem row "Type Name" with
  | .error e => .error e
  | .ok name =>
    match common_header row (pyStrVal name ++ "_descriptor") with
    | .error e => .error e
    | .ok hdr =>
      match pyStrip (rowGet row "ValueType (VALUE_TYPE_FOR)" (.str "")) with
      | .error e => .error e
      | .ok ref_val =>
        let spec := hdr ++
          [("property_name", name),
           ("value_type",
            if truthy ref_val then ref ref_val .none .none else .none)]
        .ok (.dict
          [("type_kind", .str "PropertyType"),
           ("type_name", name),
           ("described_by", ref (.str "PropertyType") .none .none),
           ("spec", .dict spec)])

/-- The per-pair body of the bundle notebook's
`for src, tgt in itertools.product(froms, tos)` loop. -/
def rel_loop (row : Row) (rel : Py) (source_owns : Bool)
    (deletion_sem : Py) (load_links load_holons : Bool) (has_inv : Py)
    (tmin tmax : Int) (tsem : Py) :
    List (String × String) → Except String (List Py)
  | [] => .ok []
  | (src, tgt) :: rest =>
    let tname := src ++ "-" ++ pyStrVal rel ++ "->" ++ tgt
    match common_header row (tname ++ "Descriptor") with
    | .error e => .error e
    | .ok hdr =>
      let spec := hdr ++
        [("relationship_name", rel),
         ("source_owns_relationship", .bool source_owns),
         ("deletion_semantic", deletion_sem),
         ("load_links_immediate", .bool load_links),
         ("load_holons_immediate", .bool load_holons),
         ("has_inverse",
          if truthy has_inv then ref has_inv .none .none else .none),
         ("target_holon_type", ref (.str tgt) (.str default_schema_type_name) .none),
         ("target_semantic", tsem),
         ("target_min_cardinality", .int tmin),
         ("target_max_cardinality", .int tmax)]
      match rel_loop row rel source_owns deletion_sem load_links
          load_holons has_inv tmin tmax tsem rest with
      | .error e => .error e
      | .ok outs => .ok (.dict
          [("type_kind", .str "RelationshipType"),
           ("type_name", .str tname),
           ("described_by", ref (.str "RelationshipType") .none .none),
           ("spec", .dict spec)] :: outs)

/-- `row_to_relationshiptype` of the bundle notebook. -/
def row_to_relationshiptype (row : Row) : Except String (List Py) :=
  match rowItem row "Type Name" with
  | .error e => .error e
  | .ok rel =>
    let source_owns := bool_norm (rowGet row "Source Owns Relationship" (.bool false))
    let ds := rowGet row "Deletion Semantic" .none
    let deletion_sem :=
      if pd_isna ds || pyStripStr (pyStrVal ds) == "" then Py.none else ds
    let load_links := bool_norm (rowGet row "Load Links Immediate" (.bool false))
    let load_holons := bool_norm (rowGet row "Load Holons Immediate" (.bool false))
    let has_inv := pyOr (rowGet row "Has Inverse" .none) .none
    match pyInt (pyOr (rowGet row "Target Min Cardinality" .none) (.int 0)) with
    | .error e => .error e
    | .ok tmin =>
      match pyInt (pyOr (rowGet row "Target Max Cardinality" .none) (.int 1)) with
      | .error e => .error e
      | .ok tmax =>
        let tsem := rowGet row "Target Semantic" (.str "Set")
        let froms := strip_split (pyStrVal (rowGet row "Relationship From" (.str "")))
        let tos := strip_split (pyStrVal (rowGet row "Relationship To" (.str "")))
        rel_loop row rel source_owns deletion_sem load_links load_holons
          has_inv tmin tmax tsem
          (froms.flatMap (fun src => tos.map (fun tgt => (src, tgt))))

/-- The bundle notebook's row-dispatch driver: skip rows whose
`TypeKind` is not in `TYPEKINDS`, convert the three implemented kinds,
silently drop the unimplemented ones. -/
def convert_rows : List Row → Except String (List Py)
  | [] => .ok []
  | row :: rest =>
    match rowItem row "TypeKind" with
    | .error e => .error e
    | .ok kind =>
      if ¬ (TYPEKINDS.any (fun t => kind = Py.str t)) then convert_rows rest
      else if kind = Py.str "HolonType" then
        match row_to_holontype row with
        | .error e => .error e
        | .ok d =>
          match convert_rows rest with
          | .error e => .error e
          | .ok ds => .ok (d :: ds)
      else if kind = Py.str "PropertyType" then
        match row_to_propertytype row with
        | .error e => .error e
        | .ok d =>
          match convert_rows rest with
          | .error e => .error e
          | .ok ds => .ok (d :: ds)
      else if kind = Py.str "RelationshipType" then
        match row_to_relationshiptype row with
        | .error e => .error e
        | .ok outs =>
          match convert_rows rest with
          | .error e => .error e
          | .ok ds => .ok (outs ++ ds)
      else convert_rows rest

/-- One step of `descriptor_buckets.setdefault(d["type_kind"], []).append(d)`. -/
def addBucket (bs : List (Py × List Py)) (k : Py) (d : Py) : List (Py × List Py) :=
  match bs with
  | [] => [(k, [d])]
  | (k', items) :: rest =>
      if k' = k then (k', items ++ [d]) :: rest
      else (k', items) :: addBucket rest k d

/-- The bucket-building loop of the bundle notebook. -/
def build_buckets (bs : List (Py × List Py)) :
    List Py → Except String (List (Py × List Py))
  | [] => .ok bs
  | d :: rest =>
    match dget d "type_kind" with
    | some k => build_buckets (addBucket bs k d) rest
    | Option.none => .error "KeyError: type_kind"

/-- `descriptor_buckets`: group the accumulated descriptors by their
`type_kind` field, preserving insertion order. -/
def descriptor_buckets (all_desc : List Py) : Except String (List (Py × List Py)) :=
  build_buckets [] all_desc

/-- The bucket-writing loop: each bucket goes to the file
`kind.lower() + "s.json"` in the fresh output directory; the result is
the directory contents as name/content pairs, in write order. -/
def write_buckets (bs : List (Py × List Py)) : Except String (List (String × Py)) :=
  match bs with
  | [] => .ok []
  | (k, items) :: rest =>
    match pyLower k with
    | .error e => .error e
    | .ok kl =>
      match write_buckets rest with
      | .error e => .error e
      | .ok files => .ok ((kl ++ "s.json", Py.list items) :: files)

/-- The manifest's `type_files` entry:
`[f.name for f in OUT_DIR.glob("*.json") if f.name != "schema.json"]`,
evaluated against the run's freshly created output directory, which at
that point holds exactly the bucket files just written. -/
def manifest_type_files (dirFiles : List (String × Py)) : List String :=
  (dirFiles.map Prod.fst).filter
    (fun n => strEndsWith n ".json" && !(n == "schema.json"))

end Bundle

/-
  Python dict equality ignores key insertion order.  To compare
  descriptors produced by the two pipelines (whose wrapper dicts list
  the same keys in different orders) we canonicalize embedded values by
  recursively sorting dict keys.
-/

/-- A strict total order on characters lists, used only to fix the
canonical key order. -/
def charsLtB : List Char → List Char → Bool
  | [], [] => false
  | [], _ :: _ => true
  | _ :: _, [] => false
  | a :: as, b :: bs =>
      if a.toNat < b.toNat then true
      else if b.toNat < a.toNat then false
      else charsLtB as bs

/-- Key order for canonicalization. -/
def strLtB (a b : String) : Bool := charsLtB a.data b.data

/-- Insert a field into a key-sorted field list. -/
def insertField (p : String × Py) : List (String × Py) → List (String × Py)
  | [] => [p]
  | q :: qs => if strLtB p.1 q.1 then p :: q :: qs else q :: insertField p qs

/-- Insertion sort of a field list by key. -/
def sortFields : List (String × Py) → List (String × Py)
  | [] => []
  | p :: ps => insertField p (sortFields ps)

mutual

/-- Canonical form of an embedded value: all dict key lists sorted.
Two values are equal as Python values (up to dict key order) exactly
when their canonical forms are equal. -/
def canon : Py → Py
  | .none => .none
  | .bool b => .bool b
  | .int n => .int n
  | .nan => .nan
  | .str s => .str s
  | .list xs => .list (canonList xs)
  | .dict fs => .dict (sortFields (canonFields fs))

def canonList : List Py → List Py
  | [] => []
  | x :: xs => canon x :: canonList xs

def canonFields : List (String × Py) → List (String × Py)
  | [] => []
  | (k, v) :: fs => (k, canon v) :: canonFields fs

end

/-- Replace the value stored at a key of a dict, keeping key order
(used to overwrite the `type_kind` literal when comparing the two
pipelines). -/
def setField (key : String) (new : Py) : Py → Py
  | .dict fs => .dict (fs.map (fun p => if p.1 == key then (p.1, new) else p))
  | v => v

/-
  Helper lemmas about the relationship expansion loops.
-/

/-- The names emitted by the bundle loop, pair by pair. -/
theorem Bundle.rel_loop_names (row : Row) (rel : Py) (so : Bool) (ds : Py)
    (ll lh : Bool) (hi : Py) (tmin tmax : Int) (ts : Py) :
    ∀ (pairs : List (String × String)) (outs : List Py),
      Bundle.rel_loop row rel so ds ll lh hi tmin tmax ts pairs = .ok outs →
      outs.map (fun d => dget d "type_name")
        = pairs.map (fun p => some (.str (p.1 ++ "-" ++ pyStrVal rel ++ "->" ++ p.2)))
  | [], outs => by
      intro h
      cases h
      rfl
  | (src, tgt) :: rest, outs => by
      intro h
      rw [Bundle.rel_loop] at h
      cases hh : common_header row
          (src ++ "-" ++ pyStrVal rel ++ "->" ++ tgt ++ "Descriptor") with
      | error e => rw [hh] at h; cases h
      | ok hdr =>
        rw [hh] at h
        cases hr : Bundle.rel_loop row rel so ds ll lh hi tmin tmax ts rest with
        | error e => rw [hr] at h; cases h
        | ok outs' =>
          rw [hr] at h
          cases h
          have ih := Bundle.rel_loop_names row rel so ds ll lh hi tmin tmax ts
            rest outs' hr
          simp only [List.map_cons, ih]
          rfl

/-- The names emitted by the single-file loop, pair by pair. -/
theorem single_rel_loop_names (row : Row) (rel : Py) (so : Bool) (ds : Py)
    (ll lh : Bool) (hi : Py) (tmin tmax : Int) (ts : Py) :
    ∀ (pairs : List (String × String)) (outs : List Py),
      Single.rel_loop row rel so ds ll lh hi tmin tmax ts pairs = .ok outs →
      outs.map (fun d => dget d "type_name")
        = pairs.map (fun p => some (.str (p.1 ++ "-" ++ pyStrVal rel ++ "->" ++ p.2)))
  | [], outs => by
      intro h
      cases h
      rfl
  | (src, tgt) :: rest, outs => by
      intro h
      rw [Single.rel_loop] at h
      cases hh : common_header row
          (src ++ "-" ++ pyStrVal rel ++ "->" ++ tgt ++ "Descriptor") with
      | error e => rw [hh] at h; cases h
      | ok hdr =>
        rw [hh] at h
        cases hr : Single.rel_loop row rel so ds ll lh hi tmin tmax ts rest with
        | error e => rw [hr] at h; cases h
        | ok outs' =>
          rw [hr] at h
          cases h
          have ih := single_rel_loop_names row rel so ds ll lh hi tmin tmax ts
            rest outs' hr
          simp only [List.map_cons, ih]
          rfl

/-- Length of a cross-product expansion. -/
theorem flatMap_map_length {β : Type} (froms tos : List String)
    (g : String → String → β) :
    (froms.flatMap (fun src => tos.map (g src))).length
      = froms.length * tos.length := by
  induction froms with
  | nil => simp
  | cons f fs ih =>
      simp only [List.flatMap_cons, List.length_append, List.length_map, ih,
        List.length_cons]
      ring

/-- Mapping a function over the cross-product pair list. -/
theorem product_pairs_map {β : Type} (froms tos : List String)
    (F : String × String → β) :
    (froms.flatMap (fun src => tos.map (fun tgt => (src, tgt)))).map F
      = froms.flatMap (fun src => tos.map (fun tgt => F (src, tgt))) := by
  induction froms with
  | nil => rfl
  | cons f fs ih =>
      simp only [List.flatMap_cons, List.map_append, List.map_map, ih]
      rfl

/-- Shape of a successful bundle relationship conversion: names,
count, and the empty-list case. -/
theorem Bundle.rel_ok_shape (row : Row) (rel : Py) (outs : List Py)
    (hn : rowItem row "Type Name" = .ok rel)
    (h : Bundle.row_to_relationshiptype row = .ok outs) :
    outs.map (fun d => dget d "type_name")
      = (strip_split (pyStrVal (rowGet row "Relationship From" (.str "")))).flatMap
          (fun src =>
            (strip_split (pyStrVal (rowGet row "Relationship To" (.str "")))).map
              (fun tgt => some (.str (src ++ "-" ++ pyStrVal rel ++ "->" ++ tgt))))
    ∧ outs.length
        = (strip_split (pyStrVal (rowGet row "Relationship From" (.str "")))).length
          * (strip_split (pyStrVal (rowGet row "Relationship To" (.str "")))).length
    ∧ (strip_split (pyStrVal (rowGet row "Relationship From" (.str ""))) = []
         ∨ strip_split (pyStrVal (rowGet row "Relationship To" (.str ""))) = []
       → outs = []) := by
  simp only [Bundle.row_to_relationshiptype, hn] at h
  cases hmin : pyInt (pyOr (rowGet row "Target Min Cardinality" Py.none) (.int 0)) with
  | error e => rw [hmin] at h; cases h
  | ok tmin =>
    rw [hmin] at h
    cases hmax : pyInt (pyOr (rowGet row "Target Max Cardinality" Py.none) (.int 1)) with
    | error e => rw [hmax] at h; cases h
    | ok tmax =>
      rw [hmax] at h
      have hnames := Bundle.rel_loop_names row rel
        (bool_norm (rowGet row "Source Owns Relationship" (.bool false)))
        (if pd_isna (rowGet row "Deletion Semantic" Py.none)
            || pyStripStr (pyStrVal (rowGet row "Deletion Semantic" Py.none)) == ""
         then Py.none else rowGet row "Deletion Semantic" Py.none)
        (bool_norm (rowGet row "Load Links Immediate" (.bool false)))
        (bool_norm (rowGet row "Load Holons Immediate" (.bool false)))
        (pyOr (rowGet row "Has Inverse" Py.none) Py.none)
        tmin tmax (rowGet row "Target Semantic" (.str "Set")) _ outs h
      rw [product_pairs_map] at hnames
      refine ⟨hnames, ?_, ?_⟩
      · have hlen := congrArg List.length hnames
        simp only [List.length_map] at hlen
        rw [hlen]
        exact flatMap_map_length _ _
          (fun src tgt => some (Py.str ((src, tgt).1 ++ "-" ++ pyStrVal rel
            ++ "->" ++ (src, tgt).2)))
      · intro hempty
        have hp : (strip_split (pyStrVal (rowGet row "Relationship From" (.str "")))).flatMap
            (fun src =>
              (strip_split (pyStrVal (rowGet row "Relationship To" (.str "")))).map
                (fun tgt => (src, tgt))) = [] := by
          cases hempty with
          | inl hf => rw [hf]; rfl
          | inr ht => rw [ht]; simp
        rw [hp] at h
        cases h
        rfl

/-- Shape of a successful single-file relationship conversion. -/
theorem single_rel_ok_shape (row : Row) (rel : Py) (outs : List Py)
    (hn : rowItem row "Type Name" = .ok rel)
    (h : Single.row_to_relationshiptype row = .ok outs) :
    outs.map (fun d => dget d "type_name")
      = (strip_split (pyStrVal (rowGet row "Relationship From" (.str "")))).flatMap
          (fun src =>
            (strip_split (pyStrVal (rowGet row "Relationship To" (.str "")))).map
              (fun tgt => some (.str (src ++ "-" ++ pyStrVal rel ++ "->" ++ tgt))))
    ∧ outs.length
        = (strip_split (pyStrVal (rowGet row "Relationship From" (.str "")))).length
          * (strip_split (pyStrVal (rowGet row "Relationship To" (.str "")))).length
    ∧ (strip_split (pyStrVal (rowGet row "Relationship From" (.str ""))) = []
         ∨ strip_split (pyStrVal (rowGet row "Relationship To" (.str ""))) = []
       → outs = []) := by
  simp only [Single.row_to_relationshiptype, hn] at h
  cases hmin : pyInt (pyOr (rowGet row "Target Min Cardinality" Py.none) (.int 0)) with
  | error e => rw [hmin] at h; cases h
  | ok tmin =>
    rw [hmin] at h
    cases hmax : pyInt (pyOr (rowGet row "Target Max Cardinality" Py.none) (.int 1)) with
    | error e => rw [hmax] at h; cases h
    | ok tmax =>
      rw [hmax] at h
      have hnames := single_rel_loop_names row rel
        (bool_norm (rowGet row "Source Owns Relationship" (.bool false)))
        (if pd_isna (rowGet row "Deletion Semantic" Py.none)
            || pyStripStr (pyStrVal (rowGet row "Deletion Semantic" Py.none)) == ""
         then Py.none else rowGet row "Deletion Semantic" Py.none)
        (bool_norm (rowGet row "Load Links Immediate" (.bool false)))
        (bool_norm (rowGet row "Load Holons Immediate" (.bool false)))
        (pyOr (rowGet row "Has Inverse" (.str "")) Py.none)
        tmin tmax (rowGet row "Target Semantic" (.str "Set")) _ outs h
      rw [product_pairs_map] at hnames
      refine ⟨hnames, ?_, ?_⟩
      · have hlen := congrArg List.length hnames
        simp only [List.length_map] at hlen
        rw [hlen]
        exact flatMap_map_length _ _
          (fun src tgt => some (Py.str ((src, tgt).1 ++ "-" ++ pyStrVal rel
            ++ "->" ++ (src, tgt).2)))
      · intro hempty
        have hp : (strip_split (pyStrVal (rowGet row "Relationship From" (.str "")))).flatMap
            (fun src =>
              (strip_split (pyStrVal (rowGet row "Relationship To" (.str "")))).map
                (fun tgt => (src, tgt))) = [] := by
          cases hempty with
          | inl hf => rw [hf]; rfl
          | inr ht => rw [ht]; simp
        rw [hp] at h
        cases h
        rfl

/-- The worked example of spec section 8, property 6. -/
def memberOfRow : Row :=
  [("Type Name", .str "MEMBER_OF"),
   ("TypeKind", .str "RelationshipType"),
   ("Relationship From", .str "Person, Volunteer"),
   ("Relationship To", .str "Team")]

/-- A minimal RelationshipType row with no from/to lists at all. -/
def relEmptyRow : Row :=
  [("Type Name", .str "R"),
   ("TypeKind", .str "RelationshipType")]

/-- C1: every successful RelationshipType conversion, in either
pipeline, emits exactly one descriptor per ordered pair of the parsed
from-list (outer) and to-list (inner), each named
src-relationship_name-target with the exact arrow format; a row whose
parsed from-list or to-list is empty yields zero descriptors; and the
MEMBER_OF worked example yields exactly the two descriptors
Person-MEMBER_OF-Team then Volunteer-MEMBER_OF-Team, in that order. -/
theorem C1_relationship_cross_product :
    (∀ (row : Row) (rel : Py) (outs : List Py),
        rowItem row "Type Name" = .ok rel →
        Bundle.row_to_relationshiptype row = .ok outs →
        outs.map (fun d => dget d "type_name")
          = (strip_split (pyStrVal (rowGet row "Relationship From" (.str "")))).flatMap
              (fun src =>
                (strip_split (pyStrVal (rowGet row "Relationship To" (.str "")))).map
                  (fun tgt => some (.str (src ++ "-" ++ pyStrVal rel ++ "->" ++ tgt))))
        ∧ outs.length
            = (strip_split (pyStrVal (rowGet row "Relationship From" (.str "")))).length
              * (strip_split (pyStrVal (rowGet row "Relationship To" (.str "")))).length
        ∧ (strip_split (pyStrVal (rowGet row "Relationship From" (.str ""))) = []
             ∨ strip_split (pyStrVal (rowGet row "Relationship To" (.str ""))) = []
           → outs = []))
    ∧ (∀ (row : Row) (rel : Py) (outs : List Py),
        rowItem row "Type Name" = .ok rel →
        Single.row_to_relationshiptype row = .ok outs →
        outs.map (fun d => dget d "type_name")
          = (strip_split (pyStrVal (rowGet row "Relationship From" (.str "")))).flatMap
              (fun src =>
                (strip_split (pyStrVal (rowGet row "Relationship To" (.str "")))).map
                  (fun tgt => some (.str (src ++ "-" ++ pyStrVal rel ++ "->" ++ tgt))))
        ∧ outs.length
            = (strip_split (pyStrVal (rowGet row "Relationship From" (.str "")))).length
              * (strip_split (pyStrVal (rowGet row "Relationship To" (.str "")))).length
        ∧ (strip_split (pyStrVal (rowGet row "Relationship From" (.str ""))) = []
             ∨ strip_split (pyStrVal (rowGet row "Relationship To" (.str ""))) = []
           → outs = []))
    ∧ (Bundle.row_to_relationshiptype memberOfRow).map
        (fun outs => outs.map (fun d => dget d "type_name"))
        = .ok [some (.str "Person-MEMBER_OF->Team"),
               some (.str "Volunteer-MEMBER_OF->Team")]
    ∧ (Single.row_to_relationshiptype memberOfRow).map
        (fun outs => outs.map (fun d => dget d "type_name"))
        = .ok [some (.str "Person-MEMBER_OF->Team"),
               some (.str "Volunteer-MEMBER_OF->Team")] :=
  ⟨Bundle.rel_ok_shape, single_rel_ok_shape, rfl, rfl⟩

/-- Witness for C1: both hypotheses hold at the concrete row with no
from/to cells, and the theorem then evaluates its conversion to zero
descriptors. -/
theorem C1_relationship_cross_product_witness :
    rowItem relEmptyRow "Type Name" = .ok (.str "R")
    ∧ Bundle.row_to_relationshiptype relEmptyRow = .ok []
    ∧ (([] : List Py).map (fun d => dget d "type_name")
        = (strip_split (pyStrVal (rowGet relEmptyRow "Relationship From" (.str "")))).flatMap
            (fun src =>
              (strip_split (pyStrVal (rowGet relEmptyRow "Relationship To" (.str "")))).map
                (fun tgt => some (.str (src ++ "-" ++ pyStrVal (Py.str "R") ++ "->" ++ tgt))))
      ∧ ([] : List Py).length
          = (strip_split (pyStrVal (rowGet relEmptyRow "Relationship From" (.str "")))).length
            * (strip_split (pyStrVal (rowGet relEmptyRow "Relationship To" (.str "")))).length
      ∧ (strip_split (pyStrVal (rowGet relEmptyRow "Relationship From" (.str ""))) = []
           ∨ strip_split (pyStrVal (rowGet relEmptyRow "Relationship To" (.str ""))) = []
         → ([] : List Py) = [])) :=
  ⟨rfl, rfl, C1_relationship_cross_product.1 relEmptyRow (.str "R") [] rfl rfl⟩

/-- C10: ref always returns a dict of the single key dollar-ref whose
value binds type_name to the argument unchanged (no trimming, no
validation, empty string included), and carries a schema or space key
exactly when the corresponding argument is truthy, bound unchanged. -/
theorem C10_ref_structure :
    ∀ (tn sch sp : Py), ∃ fs : List (String × Py),
      ref tn sch sp = .dict [("$ref", .dict fs)]
      ∧ alookup fs "type_name" = some tn
      ∧ (("schema" ∈ fs.map Prod.fst) ↔ truthy sch = true)
      ∧ (truthy sch = true → alookup fs "schema" = some sch)
      ∧ (("space" ∈ fs.map Prod.fst) ↔ truthy sp = true)
      ∧ (truthy sp = true → alookup fs "space" = some sp) := by
  intro tn sch sp
  refine ⟨[("type_name", tn)]
      ++ (if truthy sch then [("schema", sch)] else [])
      ++ (if truthy sp then [("space", sp)] else []), rfl, ?_, ?_, ?_, ?_, ?_⟩
  all_goals cases hsch : truthy sch <;> cases hsp : truthy sp <;>
    simp [alookup, hsch, hsp]

/-- Witness for C10 at concrete arguments: the empty-string type name
is kept verbatim, a truthy schema appears, an absent space does not. -/
theorem C10_ref_structure_witness :
    ∃ fs : List (String × Py),
      ref (.str "") (.str "S") Py.none = .dict [("$ref", .dict fs)]
      ∧ alookup fs "type_name" = some (.str "")
      ∧ (("schema" ∈ fs.map Prod.fst) ↔ truthy (.str "S") = true)
      ∧ (truthy (.str "S") = true → alookup fs "schema" = some (.str "S"))
      ∧ (("space" ∈ fs.map Prod.fst) ↔ truthy Py.none = true)
      ∧ (truthy Py.none = true → alookup fs "space" = some Py.none) :=
  C10_ref_structure (.str "") (.str "S") Py.none

/-- Read one field of the spec dict out of a converted descriptor. -/
def spec_field (e : Except String Py) (k : String) : Except String (Option Py) :=
  e.map (fun d => (dget d "spec").bind (fun s => dget s k))

/-- Read one spec field out of every descriptor of an expansion. -/
def spec_fields (e : Except String (List Py)) (k : String) :
    Except String (List (Option Py)) :=
  e.map (fun outs => outs.map (fun d => (dget d "spec").bind (fun s => dget s k)))

/-
  Concrete rows exercising the converters.  A cell holding `Py.nan`
  models a blank cell of the CSV (pandas stores NaN there); a column
  absent from the association list models a column absent from the
  frame (so `row.get` falls back to its default).
-/

/-- HolonType row with a populated properties cell and a blank (NaN)
key-properties cell. -/
def holonRowListCells : Row :=
  [("Type Name", .str "Widget"),
   ("TypeKind", .str "HolonType"),
   ("MAP PROPERTIES PropertyTypes", .str "A, B,,C ,"),
   ("MAP KEY_PROPERTIES PropertyTypes", .nan)]

/-- HolonType row with no list columns at all. -/
def holonRowNoLists : Row :=
  [("Type Name", .str "W2"),
   ("TypeKind", .str "HolonType")]

/-- RelationshipType row whose Relationship From cell is blank (NaN). -/
def relNanFromRow : Row :=
  [("Type Name", .str "MEMBER_OF"),
   ("TypeKind", .str "RelationshipType"),
   ("Relationship From", .nan),
   ("Relationship To", .str "Team")]

/-- RelationshipType row with blank (NaN) cardinality and semantic cells. -/
def relCardNanRow : Row :=
  [("Type Name", .str "MEMBER_OF"),
   ("TypeKind", .str "RelationshipType"),
   ("Relationship From", .str "Person"),
   ("Relationship To", .str "Team"),
   ("Target Min Cardinality", .nan),
   ("Target Max Cardinality", .nan),
   ("Target Semantic", .nan)]

/-- RelationshipType row with the cardinality/semantic columns absent. -/
def relCardMissingRow : Row :=
  [("Type Name", .str "MEMBER_OF"),
   ("TypeKind", .str "RelationshipType"),
   ("Relationship From", .str "Person"),
   ("Relationship To", .str "Team")]

/-- RelationshipType row whose Target Semantic cell alone is blank (NaN). -/
def relSemNanRow : Row :=
  [("Type Name", .str "MEMBER_OF"),
   ("TypeKind", .str "RelationshipType"),
   ("Relationship From", .str "Person"),
   ("Relationship To", .str "Team"),
   ("Target Semantic", .nan)]

/-- RelationshipType row whose Has Inverse cell is blank (NaN). -/
def relInvNanRow : Row :=
  [("Type Name", .str "MEMBER_OF"),
   ("TypeKind", .str "RelationshipType"),
   ("Relationship From", .str "Person"),
   ("Relationship To", .str "Team"),
   ("Has Inverse", .nan)]

/-- RelationshipType row whose Has Inverse cell is the empty string. -/
def relInvEmptyRow : Row :=
  [("Type Name", .str "MEMBER_OF"),
   ("TypeKind", .str "RelationshipType"),
   ("Relationship From", .str "Person"),
   ("Relationship To", .str "Team"),
   ("Has Inverse", .str "")]

/-- RelationshipType row with a populated Has Inverse cell. -/
def relInvStrRow : Row :=
  [("Type Name", .str "MEMBER_OF"),
   ("TypeKind", .str "RelationshipType"),
   ("Relationship From", .str "Person"),
   ("Relationship To", .str "Team"),
   ("Has Inverse", .str "PARENT_OF")]

/-- HolonType row with blank (NaN) label and description cells. -/
def holonLabelNanRow : Row :=
  [("Type Name", .str "Widget"),
   ("TypeKind", .str "HolonType"),
   ("Label (Human Readable)", .nan),
   ("Description", .nan)]

/-- HolonType row with empty-string label and description cells. -/
def holonLabelEmptyRow : Row :=
  [("Type Name", .str "Widget"),
   ("TypeKind", .str "HolonType"),
   ("Label (Human Readable)", .str ""),
   ("Description", .str "")]

/-- HolonType row with populated label and description cells. -/
def holonLabelStrRow : Row :=
  [("Type Name", .str "Widget"),
   ("TypeKind", .str "HolonType"),
   ("Label (Human Readable)", .str "Widget"),
   ("Description", .str "A widget.")]

/-- C4: the comma-split, trim, drop-empties rule holds for the parsed
text and for the HolonType list cells (blank NaN cell and missing
column both give the empty list there), but the RelationshipType
from/to cells lack the NaN guard: a blank (NaN) Relationship From cell
is stringified to the token nan, parses to a one-element list instead
of the empty list, and produces a descriptor named from that token. -/
theorem C4_list_cell_parsing :
    strip_split "A, B,,C ," = ["A", "B", "C"]
    ∧ strip_split "" = []
    ∧ spec_field (Bundle.row_to_holontype holonRowListCells) "properties"
        = .ok (some (.list [.str "A", .str "B", .str "C"]))
    ∧ spec_field (Bundle.row_to_holontype holonRowListCells) "key_properties"
        = .ok (some (.list []))
    ∧ spec_field (Bundle.row_to_holontype holonRowNoLists) "properties"
        = .ok (some (.list []))
    ∧ spec_field (Bundle.row_to_holontype holonRowNoLists) "key_properties"
        = .ok (some (.list []))
    ∧ pyStrVal Py.nan = "nan"
    ∧ strip_split (pyStrVal (rowGet relNanFromRow "Relationship From" (.str "")))
        = ["nan"]
    ∧ (Bundle.row_to_relationshiptype relNanFromRow).map
        (fun outs => outs.map (fun d => dget d "type_name"))
        = .ok [some (.str "nan-MEMBER_OF->Team")]
    ∧ (Single.row_to_relationshiptype relNanFromRow).map
        (fun outs => outs.map (fun d => dget d "type_name"))
        = .ok [some (.str "nan-MEMBER_OF->Team")] :=
  ⟨rfl, rfl, rfl, rfl, rfl, rfl, rfl, rfl, rfl, rfl⟩

/-- C2: with the cardinality columns entirely absent the defaults 0, 1
and Set do apply, but a blank (NaN) Target Min Cardinality cell makes
both converters raise ValueError (NaN is truthy, so the or-0 fallback
does not trigger and int(nan) fails), and a blank (NaN) Target
Semantic cell is kept as NaN rather than defaulting to Set. -/
theorem C2_cardinality_defaults :
    Bundle.row_to_relationshiptype relCardNanRow
      = .error "ValueError: cannot convert float NaN to integer"
    ∧ Single.row_to_relationshiptype relCardNanRow
        = .error "ValueError: cannot convert float NaN to integer"
    ∧ spec_fields (Bundle.row_to_relationshiptype relCardMissingRow)
        "target_min_cardinality" = .ok [some (.int 0)]
    ∧ spec_fields (Bundle.row_to_relationshiptype relCardMissingRow)
        "target_max_cardinality" = .ok [some (.int 1)]
    ∧ spec_fields (Bundle.row_to_relationshiptype relCardMissingRow)
        "target_semantic" = .ok [some (.str "Set")]
    ∧ spec_fields (Bundle.row_to_relationshiptype relSemNanRow)
        "target_semantic" = .ok [some Py.nan] :=
  ⟨rfl, rfl, rfl, rfl, rfl, rfl⟩

/-- C6: an empty-string or missing Has Inverse cell does yield an
absent has_inverse, and a populated cell yields a reference wrapping
the string; but a blank (NaN) cell is truthy, escapes the or-None
normalization, and yields a reference wrapping NaN instead of an
absent value, in both pipelines. -/
theorem C6_has_inverse :
    spec_fields (Bundle.row_to_relationshiptype relCardMissingRow) "has_inverse"
      = .ok [some Py.none]
    ∧ spec_fields (Bundle.row_to_relationshiptype relInvEmptyRow) "has_inverse"
        = .ok [some Py.none]
    ∧ spec_fields (Bundle.row_to_relationshiptype relInvStrRow) "has_inverse"
        = .ok [some (.dict [("$ref", .dict [("type_name", .str "PARENT_OF")])])]
    ∧ spec_fields (Bundle.row_to_relationshiptype relInvNanRow) "has_inverse"
        = .ok [some (.dict [("$ref", .dict [("type_name", Py.nan)])])]
    ∧ spec_fields (Single.row_to_relationshiptype relInvNanRow) "has_inverse"
        = .ok [some (.dict [("$ref", .dict [("type_name", Py.nan)])])] :=
  ⟨rfl, rfl, rfl, rfl, rfl⟩

/-- C7: a populated label or description cell is copied verbatim and
an empty-string cell or an absent column falls back to the empty
string, but a blank (NaN) cell is truthy, escapes the or-empty-string
fallback, and is kept as NaN (the pandas missing-value marker), in
both pipelines. -/
theorem C7_label_description_fallback :
    spec_field (Bundle.row_to_holontype holonLabelStrRow) "label"
      = .ok (some (.str "Widget"))
    ∧ spec_field (Bundle.row_to_holontype holonLabelStrRow) "description"
        = .ok (some (.str "A widget."))
    ∧ spec_field (Bundle.row_to_holontype holonLabelEmptyRow) "label"
        = .ok (some (.str ""))
    ∧ spec_field (Bundle.row_to_holontype holonLabelEmptyRow) "description"
        = .ok (some (.str ""))
    ∧ spec_field (Bundle.row_to_holontype holonRowNoLists) "label"
        = .ok (some (.str ""))
    ∧ spec_field (Bundle.row_to_holontype holonRowNoLists) "description"
        = .ok (some (.str ""))
    ∧ spec_field (Bundle.row_to_holontype holonLabelNanRow) "label"
        = .ok (some Py.nan)
    ∧ spec_field (Bundle.row_to_holontype holonLabelNanRow) "description"
        = .ok (some Py.nan)
    ∧ spec_field (Single.row_to_holontype holonLabelNanRow) "label"
        = .ok (some Py.nan)
    ∧ spec_field (Single.row_to_holontype holonLabelNanRow) "description"
        = .ok (some Py.nan) :=
  ⟨rfl, rfl, rfl, rfl, rfl, rfl, rfl, rfl, rfl, rfl⟩

/-- PropertyType row whose ValueType cell is the empty string. -/
def propEmptyVTRow : Row :=
  [("Type Name", .str "Color"),
   ("TypeKind", .str "PropertyType"),
   ("ValueType (VALUE_TYPE_FOR)", .str "")]

/-- PropertyType row whose ValueType cell is blank (NaN). -/
def propNanVTRow : Row :=
  [("Type Name", .str "Color"),
   ("TypeKind", .str "PropertyType"),
   ("ValueType (VALUE_TYPE_FOR)", .nan)]

/-- PropertyType row with a populated (padded) ValueType cell. -/
def propVTRow : Row :=
  [("Type Name", .str "Color"),
   ("TypeKind", .str "PropertyType"),
   ("ValueType (VALUE_TYPE_FOR)", .str " StringValue ")]

/-- Counterexample to C3: on a PropertyType row whose ValueType cell is
the empty string, the single-file pipeline stores a reference wrapping
the empty string, which is not an absent value. -/
theorem C3_counterexample :
    spec_field (Single.row_to_propertytype propEmptyVTRow) "value_type"
      = .ok (some (.dict [("$ref", .dict [("type_name", .str "")])]))
    ∧ (Py.dict [("$ref", .dict [("type_name", .str "")])]) ≠ Py.none :=
  ⟨rfl, fun h => Py.noConfusion h⟩

/-- C3 as amended: when the ValueType cell is a string, a non-empty
trim yields a reference wrapping the trimmed name in both pipelines,
while an empty trim yields an absent value in the bundle pipeline but
a reference wrapping the empty string in the single-file pipeline; a
blank (NaN) cell makes both pipelines raise AttributeError. -/
theorem C3_value_type_amended :
    (∀ (row : Row) (s : String) (d : Py),
        rowGet row "ValueType (VALUE_TYPE_FOR)" (.str "") = .str s →
        Bundle.row_to_propertytype row = .ok d →
        (dget d "spec").bind (fun sp => dget sp "value_type")
          = some (if pyStripStr s == "" then Py.none
                  else ref (.str (pyStripStr s)) .none .none))
    ∧ (∀ (row : Row) (s : String) (d : Py),
        rowGet row "ValueType (VALUE_TYPE_FOR)" (.str "") = .str s →
        Single.row_to_propertytype row = .ok d →
        (dget d "spec").bind (fun sp => dget sp "value_type")
          = some (ref (.str (pyStripStr s)) .none .none))
    ∧ (∀ (row : Row) (n tk : Py),
        rowItem row "Type Name" = .ok n →
        rowItem row "TypeKind" = .ok tk →
        rowGet row "ValueType (VALUE_TYPE_FOR)" (.str "") = Py.nan →
        Bundle.row_to_propertytype row = .error "AttributeError: strip"
        ∧ Single.row_to_propertytype row = .error "AttributeError: strip") := by
  have value_type_if : ∀ t : String,
      (if truthy (.str t) then ref (.str t) Py.none Py.none else Py.none)
        = (if t == "" then Py.none else ref (.str t) Py.none Py.none) := by
    intro t
    cases ht : t == "" with
    | true => rw [eq_of_beq ht]; rfl
    | false =>
        simp only [truthy, bne, ht, Bool.not_false, if_false, if_true]
        rfl
  refine ⟨?_, ?_, ?_⟩
  · intro row s d hcell h
    simp only [Bundle.row_to_propertytype] at h
    cases hn : rowItem row "Type Name" with
    | error e => rw [hn] at h; cases h
    | ok name =>
      rw [hn] at h
      cases hk : rowItem row "TypeKind" with
      | error e => simp only [common_header, hk] at h; cases h
      | ok tk =>
        simp only [common_header, hk, hcell, pyStrip] at h
        cases h
        show some (if truthy (.str (pyStripStr s))
            then ref (.str (pyStripStr s)) Py.none Py.none else Py.none) = _
        rw [value_type_if]
  · intro row s d hcell h
    simp only [Single.row_to_propertytype] at h
    cases hn : rowItem row "Type Name" with
    | error e => rw [hn] at h; cases h
    | ok name =>
      rw [hn] at h
      cases hk : rowItem row "TypeKind" with
      | error e => simp only [common_header, hk] at h; cases h
      | ok tk =>
        simp only [common_header, hk, hcell, pyStrip] at h
        cases h
        rfl
  · intro row n tk hn hk hcell
    constructor
    · simp only [Bundle.row_to_propertytype, hn, common_header, hk, hcell,
        pyStrip]
    · simp only [Single.row_to_propertytype, hn, common_header, hk, hcell,
        pyStrip]

/-- Witness for C3 as amended: on the concrete padded-cell row the
bundle pipeline stores a reference wrapping the trimmed name, and on
the concrete blank-cell row both pipelines raise. -/
theorem C3_value_type_amended_witness :
    (rowGet propVTRow "ValueType (VALUE_TYPE_FOR)" (.str "") = .str " StringValue "
     ∧ Bundle.row_to_propertytype propVTRow = .ok (.dict
        [("type_kind", .str "PropertyType"),
         ("type_name", .str "Color"),
         ("described_by", .dict [("$ref", .dict [("type_name", .str "PropertyType")])]),
         ("spec", .dict
           [("descriptor_name", .str "Color_descriptor"),
            ("label", .str ""),
            ("description", .str ""),
            ("is_dependent", .bool false),
            ("is_value_type", .bool false),
            ("described_by", .dict [("$ref", .dict [("type_name", .str "PropertyType")])]),
            ("is_subtype_of", Py.none),
            ("property_name", .str "Color"),
            ("value_type", .dict [("$ref", .dict [("type_name", .str "StringValue")])])])])
     ∧ (dget (.dict
        [("type_kind", .str "PropertyType"),
         ("type_name", .str "Color"),
         ("described_by", .dict [("$ref", .dict [("type_name", .str "PropertyType")])]),
         ("spec", .dict
           [("descriptor_name", .str "Color_descriptor"),
            ("label", .str ""),
            ("description", .str ""),
            ("is_dependent", .bool false),
            ("is_value_type", .bool false),
            ("described_by", .dict [("$ref", .dict [("type_name", .str "PropertyType")])]),
            ("is_subtype_of", Py.none),
            ("property_name", .str "Color"),
            ("value_type", .dict [("$ref", .dict [("type_name", .str "StringValue")])])])])
        "spec").bind (fun sp => dget sp "value_type")
          = some (if pyStripStr " StringValue " == "" then Py.none
                  else ref (.str (pyStripStr " StringValue ")) .none .none))
    ∧ (rowItem propNanVTRow "Type Name" = .ok (.str "Color")
       ∧ rowItem propNanVTRow "TypeKind" = .ok (.str "PropertyType")
       ∧ rowGet propNanVTRow "ValueType (VALUE_TYPE_FOR)" (.str "") = Py.nan
       ∧ Bundle.row_to_propertytype propNanVTRow = .error "AttributeError: strip"
       ∧ Single.row_to_propertytype propNanVTRow = .error "AttributeError: strip") :=
  ⟨⟨rfl, rfl, C3_value_type_amended.1 propVTRow " StringValue " _ rfl rfl⟩,
   rfl, rfl, rfl,
   (C3_value_type_amended.2.2 propNanVTRow (.str "Color") (.str "PropertyType")
      rfl rfl rfl).1,
   (C3_value_type_amended.2.2 propNanVTRow (.str "Color") (.str "PropertyType")
      rfl rfl rfl).2⟩

/-- Every descriptor emitted by the bundle loop carries the
RelationshipType described_by reference on the wrapper and, when the
row's TypeKind is the string RelationshipType, also inside its spec. -/
theorem Bundle.rel_loop_described_by (row : Row)
    (hk : rowItem row "TypeKind" = .ok (.str "RelationshipType"))
    (rel : Py) (so : Bool) (ds : Py) (ll lh : Bool) (hi : Py)
    (tmin tmax : Int) (ts : Py) :
    ∀ (pairs : List (String × String)) (outs : List Py),
      Bundle.rel_loop row rel so ds ll lh hi tmin tmax ts pairs = .ok outs →
      ∀ d ∈ outs,
        dget d "described_by" = some (ref (.str "RelationshipType") .none .none)
        ∧ (dget d "spec").bind (fun sp => dget sp "described_by")
            = some (ref (.str "RelationshipType") .none .none)
  | [], outs => by
      intro h d hd
      cases h
      cases hd
  | (src, tgt) :: rest, outs => by
      intro h d hd
      rw [Bundle.rel_loop] at h
      simp only [common_header, hk] at h
      cases hr : Bundle.rel_loop row rel so ds ll lh hi tmin tmax ts rest with
      | error e => rw [hr] at h; cases h
      | ok outs' =>
        rw [hr] at h
        cases h
        cases hd with
        | head => exact ⟨rfl, rfl⟩
        | tail _ hmem =>
            exact Bundle.rel_loop_described_by row hk rel so ds ll lh hi
              tmin tmax ts rest outs' hr d hmem

/-- Single-file counterpart of the loop described_by lemma. -/
theorem single_rel_loop_described_by (row : Row)
    (hk : rowItem row "TypeKind" = .ok (.str "RelationshipType"))
    (rel : Py) (so : Bool) (ds : Py) (ll lh : Bool) (hi : Py)
    (tmin tmax : Int) (ts : Py) :
    ∀ (pairs : List (String × String)) (outs : List Py),
      Single.rel_loop row rel so ds ll lh hi tmin tmax ts pairs = .ok outs →
      ∀ d ∈ outs,
        dget d "described_by" = some (ref (.str "RelationshipType") .none .none)
        ∧ (dget d "spec").bind (fun sp => dget sp "described_by")
            = some (ref (.str "RelationshipType") .none .none)
  | [], outs => by
      intro h d hd
      cases h
      cases hd
  | (src, tgt) :: rest, outs => by
      intro h d hd
      rw [Single.rel_loop] at h
      simp only [common_header, hk] at h
      cases hr : Single.rel_loop row rel so ds ll lh hi tmin tmax ts rest with
      | error e => rw [hr] at h; cases h
      | ok outs' =>
        rw [hr] at h
        cases h
        cases hd with
        | head => exact ⟨rfl, rfl⟩
        | tail _ hmem =>
            exact single_rel_loop_described_by row hk rel so ds ll lh hi
              tmin tmax ts rest outs' hr d hmem

/-- C9: when the driver dispatches a row whose TypeKind cell equals the
converter's kind, every produced descriptor carries a described_by
reference to exactly that TypeKind string, both on the wrapper and
inside the spec header, in both pipelines. -/
theorem C9_described_by :
    (∀ (row : Row) (d : Py),
        rowItem row "TypeKind" = .ok (.str "HolonType") →
        Bundle.row_to_holontype row = .ok d →
        dget d "described_by" = some (ref (.str "HolonType") .none .none)
        ∧ (dget d "spec").bind (fun sp => dget sp "described_by")
            = some (ref (.str "HolonType") .none .none))
    ∧ (∀ (row : Row) (d : Py),
        rowItem row "TypeKind" = .ok (.str "HolonType") →
        Single.row_to_holontype row = .ok d →
        dget d "described_by" = some (ref (.str "HolonType") .none .none)
        ∧ (dget d "spec").bind (fun sp => dget sp "described_by")
            = some (ref (.str "HolonType") .none .none))
    ∧ (∀ (row : Row) (d : Py),
        rowItem row "TypeKind" = .ok (.str "PropertyType") →
        Bundle.row_to_propertytype row = .ok d →
        dget d "described_by" = some (ref (.str "PropertyType") .none .none)
        ∧ (dget d "spec").bind (fun sp => dget sp "described_by")
            = some (ref (.str "PropertyType") .none .none))
    ∧ (∀ (row : Row) (d : Py),
        rowItem row "TypeKind" = .ok (.str "PropertyType") →
        Single.row_to_propertytype row = .ok d →
        dget d "described_by" = some (ref (.str "PropertyType") .none .none)
        ∧ (dget d "spec").bind (fun sp => dget sp "described_by")
            = some (ref (.str "PropertyType") .none .none))
    ∧ (∀ (row : Row) (outs : List Py),
        rowItem row "TypeKind" = .ok (.str "RelationshipType") →
        Bundle.row_to_relationshiptype row = .ok outs →
        ∀ d ∈ outs,
          dget d "described_by" = some (ref (.str "RelationshipType") .none .none)
          ∧ (dget d "spec").bind (fun sp => dget sp "described_by")
              = some (ref (.str "RelationshipType") .none .none))
    ∧ (∀ (row : Row) (outs : List Py),
        rowItem row "TypeKind" = .ok (.str "RelationshipType") →
        Single.row_to_relationshiptype row = .ok outs →
        ∀ d ∈ outs,
          dget d "described_by" = some (ref (.str "RelationshipType") .none .none)
          ∧ (dget d "spec").bind (fun sp => dget sp "described_by")
              = some (ref (.str "RelationshipType") .none .none)) := by
  refine ⟨?_, ?_, ?_, ?_, ?_, ?_⟩
  · intro row d hk h
    simp only [Bundle.row_to_holontype] at h
    cases hn : rowItem row "Type Name" with
    | error e => rw [hn] at h; cases h
    | ok name =>
      rw [hn] at h
      simp only [common_header, hk] at h
      cases h
      exact ⟨rfl, rfl⟩
  · intro row d hk h
    simp only [Single.row_to_holontype] at h
    cases hn : rowItem row "Type Name" with
    | error e => rw [hn] at h; cases h
    | ok name =>
      rw [hn] at h
      simp only [common_header, hk] at h
      cases h
      exact ⟨rfl, rfl⟩
  · intro row d hk h
    simp only [Bundle.row_to_propertytype] at h
    cases hn : rowItem row "Type Name" with
    | error e => rw [hn] at h; cases h
    | ok name =>
      rw [hn] at h
      simp only [common_header, hk] at h
      cases hv : pyStrip (rowGet row "ValueType (VALUE_TYPE_FOR)" (.str "")) with
      | error e => rw [hv] at h; cases h
      | ok sv =>
        rw [hv] at h
        cases h
        exact ⟨rfl, rfl⟩
  · intro row d hk h
    simp only [Single.row_to_propertytype] at h
    cases hn : rowItem row "Type Name" with
    | error e => rw [hn] at h; cases h
    | ok name =>
      rw [hn] at h
      simp only [common_header, hk] at h
      cases hv : pyStrip (rowGet row "ValueType (VALUE_TYPE_FOR)" (.str "")) with
      | error e => rw [hv] at h; cases h
      | ok sv =>
        rw [hv] at h
        cases h
        exact ⟨rfl, rfl⟩
  · intro row outs hk h
    simp only [Bundle.row_to_relationshiptype] at h
    cases hn : rowItem row "Type Name" with
    | error e => rw [hn] at h; cases h
    | ok rel =>
      rw [hn] at h
      cases hmin : pyInt (pyOr (rowGet row "Target Min Cardinality" Py.none) (.int 0)) with
      | error e => rw [hmin] at h; cases h
      | ok tmin =>
        rw [hmin] at h
        cases hmax : pyInt (pyOr (rowGet row "Target Max Cardinality" Py.none) (.int 1)) with
        | error e => rw [hmax] at h; cases h
        | ok tmax =>
          rw [hmax] at h
          exact Bundle.rel_loop_described_by row hk rel _ _ _ _ _ tmin tmax _ _ outs h
  · intro row outs hk h
    simp only [Single.row_to_relationshiptype] at h
    cases hn : rowItem row "Type Name" with
    | error e => rw [hn] at h; cases h
    | ok rel =>
      rw [hn] at h
      cases hmin : pyInt (pyOr (rowGet row "Target Min Cardinality" Py.none) (.int 0)) with
      | error e => rw [hmin] at h; cases h
      | ok tmin =>
        rw [hmin] at h
        cases hmax : pyInt (pyOr (rowGet row "Target Max Cardinality" Py.none) (.int 1)) with
        | error e => rw [hmax] at h; cases h
        | ok tmax =>
          rw [hmax] at h
          exact single_rel_loop_described_by row hk rel _ _ _ _ _ tmin tmax _ _ outs h

/-- Witness for C9 at a concrete HolonType row. -/
theorem C9_described_by_witness :
    rowItem holonRowNoLists "TypeKind" = .ok (.str "HolonType")
    ∧ Bundle.row_to_holontype holonRowNoLists = .ok (.dict
        [("type_kind", .str "HolonType"),
         ("type_name", .str "W2"),
         ("described_by", .dict [("$ref", .dict [("type_name", .str "HolonType")])]),
         ("spec", .dict
           [("descriptor_name", .str "W2Descriptor"),
            ("label", .str ""),
            ("description", .str ""),
            ("is_dependent", .bool false),
            ("is_value_type", .bool false),
            ("described_by", .dict [("$ref", .dict [("type_name", .str "HolonType")])]),
            ("is_subtype_of", Py.none),
            ("properties", .list []),
            ("key_properties", .list []),
            ("type_name", .str "W2")])])
    ∧ (dget (.dict
        [("type_kind", .str "HolonType"),
         ("type_name", .str "W2"),
         ("described_by", .dict [("$ref", .dict [("type_name", .str "HolonType")])]),
         ("spec", .dict
           [("descriptor_name", .str "W2Descriptor"),
            ("label", .str ""),
            ("description", .str ""),
            ("is_dependent", .bool false),
            ("is_value_type", .bool false),
            ("described_by", .dict [("$ref", .dict [("type_name", .str "HolonType")])]),
            ("is_subtype_of", Py.none),
            ("properties", .list []),
            ("key_properties", .list []),
            ("type_name", .str "W2")])]) "described_by"
        = some (ref (.str "HolonType") .none .none)) :=
  ⟨rfl, rfl,
   (C9_described_by.1 holonRowNoLists _ rfl rfl).1⟩

/-- The two pipelines' different defaults for the Has Inverse read
produce the same normalized value. -/
theorem has_inverse_default_eq (row : Row) :
    pyOr (rowGet row "Has Inverse" Py.none) Py.none
      = pyOr (rowGet row "Has Inverse" (.str "")) Py.none := by
  unfold rowGet
  cases alookup row "Has Inverse" <;> rfl

/-- Pointwise equivalence of the two relationship loops, up to dict
key order and the type_kind literal. -/
theorem rel_loop_equiv (row : Row) (rel : Py) (so : Bool) (ds : Py)
    (ll lh : Bool) (hi : Py) (tmin tmax : Int) (ts : Py) :
    ∀ pairs : List (String × String),
      (Bundle.rel_loop row rel so ds ll lh hi tmin tmax ts pairs).map
          (fun outs => outs.map canon)
        = (Single.rel_loop row rel so ds ll lh hi tmin tmax ts pairs).map
            (fun outs => outs.map
              (fun d => canon (setField "type_kind" (.str "RelationshipType") d)))
  | [] => rfl
  | (src, tgt) :: rest => by
      have ih := rel_loop_equiv row rel so ds ll lh hi tmin tmax ts rest
      rw [Bundle.rel_loop, Single.rel_loop]
      cases hh : common_header row
          (src ++ "-" ++ pyStrVal rel ++ "->" ++ tgt ++ "Descriptor") with
      | error e => rfl
      | ok hdr =>
       cases hb : Bundle.rel_loop row rel so ds ll lh hi tmin tmax ts rest with
       | error e =>
         rw [hb] at ih
         cases hs : Single.rel_loop row rel so ds ll lh hi tmin tmax ts rest with
         | error e2 =>
             rw [hs] at ih
             cases Except.error.inj ih
             rfl
         | ok outsS => rw [hs] at ih; cases ih
       | ok outsB =>
         rw [hb] at ih
         cases hs : Single.rel_loop row rel so ds ll lh hi tmin tmax ts rest with
         | error e2 => rw [hs] at ih; cases ih
         | ok outsS =>
             rw [hs] at ih
             have ih2 : outsB.map canon = outsS.map
                 (fun d => canon (setField "type_kind" (.str "RelationshipType") d)) :=
               Except.ok.inj ih
             show Except.ok _ = Except.ok _
             simp only [List.map_cons, ih2]
             rfl

/-- Counterexample to C5: on a PropertyType row with an empty ValueType
cell the two pipelines' descriptors differ beyond the type_kind
literal (absent value_type versus a reference wrapping the empty
string), so they are not equal as Python dicts even after rewriting
the type_kind literal. -/
theorem C5_counterexample :
    ¬ ((Bundle.row_to_propertytype propEmptyVTRow).map canon
        = (Single.row_to_propertytype propEmptyVTRow).map
            (fun d => canon (setField "type_kind" (.str "PropertyType") d))) := by
  intro h
  have h2 := congrArg (fun e : Except String Py =>
    match e with
    | .ok d => (dget d "spec").bind (fun sp => dget sp "value_type")
    | .error _ => Option.none) h
  exact Py.noConfusion (Option.some.inj h2)

/-- C5 as amended: on every row the HolonType and RelationshipType
converters of the two pipelines produce descriptors equal as Python
dicts except for the type_kind literal; the PropertyType converters do
so whenever the ValueType cell is a string with non-empty trim (for an
empty trim the bundle stores an absent value_type where the
single-file stores a reference wrapping the empty string). -/
theorem C5_pipeline_equivalence_amended :
    (∀ row : Row,
        (Bundle.row_to_holontype row).map canon
          = (Single.row_to_holontype row).map
              (fun d => canon (setField "type_kind" (.str "HolonType") d)))
    ∧ (∀ row : Row,
        (Bundle.row_to_relationshiptype row).map (fun outs => outs.map canon)
          = (Single.row_to_relationshiptype row).map
              (fun outs => outs.map
                (fun d => canon (setField "type_kind" (.str "RelationshipType") d))))
    ∧ (∀ (row : Row) (s : String),
        rowGet row "ValueType (VALUE_TYPE_FOR)" (.str "") = .str s →
        pyStripStr s ≠ "" →
        (Bundle.row_to_propertytype row).map canon
          = (Single.row_to_propertytype row).map
              (fun d => canon (setField "type_kind" (.str "PropertyType") d))) := by
  refine ⟨?_, ?_, ?_⟩
  · intro row
    cases hn : rowItem row "Type Name" with
    | error e =>
        simp only [Bundle.row_to_holontype, Single.row_to_holontype, hn]
        rfl
    | ok name =>
      cases hk : rowItem row "TypeKind" with
      | error e =>
          simp only [Bundle.row_to_holontype, Single.row_to_holontype,
            common_header, hn, hk]
          rfl
      | ok tk =>
          simp only [Bundle.row_to_holontype, Single.row_to_holontype,
            common_header, hn, hk]
          rfl
  · intro row
    cases hn : rowItem row "Type Name" with
    | error e =>
        simp only [Bundle.row_to_relationshiptype,
          Single.row_to_relationshiptype, hn]
        rfl
    | ok rel =>
      simp only [Bundle.row_to_relationshiptype,
        Single.row_to_relationshiptype, hn]
      rw [← has_inverse_default_eq row]
      cases hmin : pyInt (pyOr (rowGet row "Target Min Cardinality" Py.none) (.int 0)) with
      | error e => rfl
      | ok tmin =>
        cases hmax : pyInt (pyOr (rowGet row "Target Max Cardinality" Py.none) (.int 1)) with
        | error e => rfl
        | ok tmax =>
          exact rel_loop_equiv row rel _ _ _ _ _ tmin tmax _ _
  · intro row s hcell hts
    cases hn : rowItem row "Type Name" with
    | error e =>
        simp only [Bundle.row_to_propertytype, Single.row_to_propertytype, hn]
        rfl
    | ok name =>
      cases hk : rowItem row "TypeKind" with
      | error e =>
          simp only [Bundle.row_to_propertytype, Single.row_to_propertytype,
            common_header, hn, hk]
          rfl
      | ok tk =>
          simp only [Bundle.row_to_propertytype, Single.row_to_propertytype,
            common_header, hn, hk, hcell, pyStrip]
          have htr : truthy (.str (pyStripStr s)) = true := by
            simp only [truthy, bne, beq_eq_false_iff_ne.mpr hts, Bool.not_false]
          simp only [htr, if_true]
          rfl

/-- Witness for C5 as amended: the PropertyType part applied to the
concrete padded-cell row. -/
theorem C5_pipeline_equivalence_amended_witness :
    rowGet propVTRow "ValueType (VALUE_TYPE_FOR)" (.str "") = .str " StringValue "
    ∧ pyStripStr " StringValue " ≠ ""
    ∧ ((Bundle.row_to_propertytype propVTRow).map canon
        = (Single.row_to_propertytype propVTRow).map
            (fun d => canon (setField "type_kind" (.str "PropertyType") d))) :=
  ⟨rfl, by decide,
   C5_pipeline_equivalence_amended.2.2 propVTRow " StringValue " rfl (by decide)⟩

/-- Every descriptor built by the bundle holon converter is tagged
HolonType. -/
theorem Bundle.holontype_kind (row : Row) (d : Py)
    (h : Bundle.row_to_holontype row = .ok d) :
    dget d "type_kind" = some (.str "HolonType") := by
  simp only [Bundle.row_to_holontype] at h
  cases hn : rowItem row "Type Name" with
  | error e => rw [hn] at h; cases h
  | ok name =>
    simp only [hn] at h
    cases hh : common_header row (pyStrVal name ++ "Descriptor") with
    | error e => rw [hh] at h; cases h
    | ok hdr =>
      rw [hh] at h
      cases h
      rfl

/-- Every descriptor built by the bundle property converter is tagged
PropertyType. -/
theorem Bundle.propertytype_kind (row : Row) (d : Py)
    (h : Bundle.row_to_propertytype row = .ok d) :
    dget d "type_kind" = some (.str "PropertyType") := by
  simp only [Bundle.row_to_propertytype] at h
  cases hn : rowItem row "Type Name" with
  | error e => rw [hn] at h; cases h
  | ok name =>
    simp only [hn] at h
    cases hh : common_header row (pyStrVal name ++ "_descriptor") with
    | error e => rw [hh] at h; cases h
    | ok hdr =>
      rw [hh] at h
      cases hv : pyStrip (rowGet row "ValueType (VALUE_TYPE_FOR)" (.str "")) with
      | error e => rw [hv] at h; cases h
      | ok sv =>
        rw [hv] at h
        cases h
        rfl

/-- Every descriptor built by the bundle relationship loop is tagged
RelationshipType. -/
theorem Bundle.rel_loop_kinds (row : Row) (rel : Py) (so : Bool) (ds : Py)
    (ll lh : Bool) (hi : Py) (tmin tmax : Int) (ts : Py) :
    ∀ (pairs : List (String × String)) (outs : List Py),
      Bundle.rel_loop row rel so ds ll lh hi tmin tmax ts pairs = .ok outs →
      ∀ d ∈ outs, dget d "type_kind" = some (.str "RelationshipType")
  | [], outs => by
      intro h d hd
      cases h
      cases hd
  | (src, tgt) :: rest, outs => by
      intro h d hd
      rw [Bundle.rel_loop] at h
      cases hh : common_header row
          (src ++ "-" ++ pyStrVal rel ++ "->" ++ tgt ++ "Descriptor") with
      | error e => rw [hh] at h; cases h
      | ok hdr =>
        rw [hh] at h
        cases hr : Bundle.rel_loop row rel so ds ll lh hi tmin tmax ts rest with
        | error e => rw [hr] at h; cases h
        | ok outs' =>
          rw [hr] at h
          cases h
          cases hd with
          | head => rfl
          | tail _ hmem =>
              exact Bundle.rel_loop_kinds row rel so ds ll lh hi tmin tmax ts
                rest outs' hr d hmem

/-- Every descriptor built by the bundle relationship converter is
tagged RelationshipType. -/
theorem Bundle.relationshiptype_kind (row : Row) (outs : List Py)
    (h : Bundle.row_to_relationshiptype row = .ok outs) :
    ∀ d ∈ outs, dget d "type_kind" = some (.str "RelationshipType") := by
  simp only [Bundle.row_to_relationshiptype] at h
  cases hn : rowItem row "Type Name" with
  | error e => rw [hn] at h; cases h
  | ok rel =>
    rw [hn] at h
    cases hmin : pyInt (pyOr (rowGet row "Target Min Cardinality" Py.none) (.int 0)) with
    | error e => rw [hmin] at h; cases h
    | ok tmin =>
      rw [hmin] at h
      cases hmax : pyInt (pyOr (rowGet row "Target Max Cardinality" Py.none) (.int 1)) with
      | error e => rw [hmax] at h; cases h
      | ok tmax =>
        rw [hmax] at h
        exact Bundle.rel_loop_kinds row rel _ _ _ _ _ tmin tmax _ _ outs h

/-- Every descriptor accumulated by the bundle driver carries one of
the three implemented kind strings. -/
theorem Bundle.convert_rows_kinds :
    ∀ (rows : List Row) (all_desc : List Py),
      Bundle.convert_rows rows = .ok all_desc →
      ∀ d ∈ all_desc, ∃ k : String, dget d "type_kind" = some (.str k)
  | [], all_desc => by
      intro h d hd
      cases h
      cases hd
  | row :: rest, all_desc => by
      intro h d hd
      rw [Bundle.convert_rows] at h
      cases hkind : rowItem row "TypeKind" with
      | error e => rw [hkind] at h; cases h
      | ok kind =>
        simp only [hkind] at h
        split at h
        · exact Bundle.convert_rows_kinds rest all_desc h d hd
        · split at h
          · cases hc : Bundle.row_to_holontype row with
            | error e => rw [hc] at h; cases h
            | ok d0 =>
              rw [hc] at h
              cases hr : Bundle.convert_rows rest with
              | error e => rw [hr] at h; cases h
              | ok ds =>
                rw [hr] at h
                cases h
                cases hd with
                | head => exact ⟨"HolonType", Bundle.holontype_kind row d hc⟩
                | tail _ hmem =>
                    exact Bundle.convert_rows_kinds rest ds hr d hmem
          · split at h
            · cases hc : Bundle.row_to_propertytype row with
              | error e => rw [hc] at h; cases h
              | ok d0 =>
                rw [hc] at h
                cases hr : Bundle.convert_rows rest with
                | error e => rw [hr] at h; cases h
                | ok ds =>
                  rw [hr] at h
                  cases h
                  cases hd with
                  | head => exact ⟨"PropertyType", Bundle.propertytype_kind row d hc⟩
                  | tail _ hmem =>
                      exact Bundle.convert_rows_kinds rest ds hr d hmem
            · split at h
              · cases hc : Bundle.row_to_relationshiptype row with
                | error e => rw [hc] at h; cases h
                | ok outs =>
                  rw [hc] at h
                  cases hr : Bundle.convert_rows rest with
                  | error e => rw [hr] at h; cases h
                  | ok ds =>
                    rw [hr] at h
                    cases h
                    cases List.mem_append.mp hd with
                    | inl hmem =>
                        exact ⟨"RelationshipType",
                          Bundle.relationshiptype_kind row outs hc d hmem⟩
                    | inr hmem =>
                        exact Bundle.convert_rows_kinds rest ds hr d hmem
              · exact Bundle.convert_rows_kinds rest all_desc h d hd

/-- Keys appearing after a setdefault/append step. -/
theorem mem_keys_addBucket (k d : Py) :
    ∀ (bs : List (Py × List Py)) (x : Py),
      x ∈ (Bundle.addBucket bs k d).map Prod.fst →
      x ∈ bs.map Prod.fst ∨ x = k
  | [], x => by
      intro hx
      simp [Bundle.addBucket] at hx
      exact Or.inr hx
  | (k', items) :: rest, x => by
      intro hx
      simp only [Bundle.addBucket] at hx
      by_cases hk' : k' = k
      · rw [if_pos hk'] at hx
        simp only [List.map_cons, List.mem_cons] at hx
        cases hx with
        | inl h => exact Or.inl (by simp [h])
        | inr h => exact Or.inl (by simp [h])
      · rw [if_neg hk'] at hx
        simp only [List.map_cons, List.mem_cons] at hx
        cases hx with
        | inl h => exact Or.inl (by simp [h])
        | inr h =>
            cases mem_keys_addBucket k d rest x h with
            | inl hh => exact Or.inl (by simp [hh])
            | inr hh => exact Or.inr hh

/-- setdefault/append keeps the bucket keys duplicate-free. -/
theorem addBucket_nodup (k d : Py) :
    ∀ bs : List (Py × List Py),
      (bs.map Prod.fst).Nodup →
      ((Bundle.addBucket bs k d).map Prod.fst).Nodup
  | [], _ => by simp [Bundle.addBucket]
  | (k', items) :: rest, h => by
      simp only [List.map_cons, List.nodup_cons] at h
      simp only [Bundle.addBucket]
      by_cases hk' : k' = k
      · rw [if_pos hk']
        simp only [List.map_cons, List.nodup_cons]
        exact h
      · rw [if_neg hk']
        simp only [List.map_cons, List.nodup_cons]
        refine ⟨?_, addBucket_nodup k d rest h.2⟩
        intro hmem
        cases mem_keys_addBucket k d rest k' hmem with
        | inl hh => exact h.1 hh
        | inr hh => exact hk' hh

/-- setdefault/append keeps every bucket's members tagged with its key. -/
theorem addBucket_tagged (k d : Py) (hd : dget d "type_kind" = some k) :
    ∀ bs : List (Py × List Py),
      (∀ b ∈ bs, ∀ x ∈ b.2, dget x "type_kind" = some b.1) →
      ∀ b ∈ Bundle.addBucket bs k d, ∀ x ∈ b.2,
        dget x "type_kind" = some b.1
  | [], _ => by
      intro b hb x hx
      simp [Bundle.addBucket] at hb
      subst hb
      simp at hx
      subst hx
      exact hd
  | (k', items) :: rest, h => by
      intro b hb x hx
      simp only [Bundle.addBucket] at hb
      by_cases hk' : k' = k
      · rw [if_pos hk'] at hb
        cases hb with
        | head =>
            cases List.mem_append.mp hx with
            | inl hold => exact h (k', items) (List.mem_cons_self _ _) x hold
            | inr hnew =>
                simp at hnew
                subst hnew
                rw [hd, hk']
        | tail _ hmem => exact h b (List.mem_cons_of_mem _ hmem) x hx
      · rw [if_neg hk'] at hb
        cases hb with
        | head => exact h (k', items) (List.mem_cons_self _ _) x hx
        | tail _ hmem =>
            exact addBucket_tagged k d hd rest
              (fun b' hb' => h b' (List.mem_cons_of_mem _ hb')) b hmem x hx

/-- setdefault/append preserves existing bucket members. -/
theorem addBucket_mem_preserved (k d : Py) :
    ∀ bs : List (Py × List Py), ∀ b ∈ bs,
      ∃ b' ∈ Bundle.addBucket bs k d, b.1 = b'.1 ∧ ∀ x ∈ b.2, x ∈ b'.2
  | [], b => by intro hb; cases hb
  | (k', items) :: rest, b => by
      intro hb
      simp only [Bundle.addBucket]
      by_cases hk' : k' = k
      · rw [if_pos hk']
        cases hb with
        | head =>
            exact ⟨(k', items ++ [d]), List.mem_cons_self _ _, rfl,
              fun x hx => List.mem_append.mpr (Or.inl hx)⟩
        | tail _ hmem =>
            exact ⟨b, List.mem_cons_of_mem _ hmem, rfl, fun x hx => hx⟩
      · rw [if_neg hk']
        cases hb with
        | head => exact ⟨(k', items), List.mem_cons_self _ _, rfl, fun x hx => hx⟩
        | tail _ hmem =>
            obtain ⟨b', hb', he, hsub⟩ := addBucket_mem_preserved k d rest b hmem
            exact ⟨b', List.mem_cons_of_mem _ hb', he, hsub⟩

/-- setdefault/append puts the new descriptor into a bucket keyed by
its kind. -/
theorem addBucket_mem_new (k d : Py) :
    ∀ bs : List (Py × List Py),
      ∃ b ∈ Bundle.addBucket bs k d, b.1 = k ∧ d ∈ b.2
  | [] => ⟨(k, [d]), by simp [Bundle.addBucket]⟩
  | (k', items) :: rest => by
      simp only [Bundle.addBucket]
      by_cases hk' : k' = k
      · rw [if_pos hk']
        exact ⟨(k', items ++ [d]), List.mem_cons_self _ _, hk',
          List.mem_append.mpr (Or.inr (List.mem_singleton.mpr rfl))⟩
      · rw [if_neg hk']
        obtain ⟨b, hb, he, hmem⟩ := addBucket_mem_new k d rest
        exact ⟨b, List.mem_cons_of_mem _ hb, he, hmem⟩

/-- Duplicate-free keys identify buckets. -/
theorem nodup_key_eq :
    ∀ (bs : List (Py × List Py)),
      (bs.map Prod.fst).Nodup →
      ∀ b ∈ bs, ∀ b' ∈ bs, b.1 = b'.1 → b = b'
  | [], _, b => by intro hb; cases hb
  | b0 :: rest, h, b => by
      intro hb b' hb' he
      simp only [List.map_cons, List.nodup_cons] at h
      cases hb with
      | head =>
          cases hb' with
          | head => rfl
          | tail _ hmem' =>
              exact absurd (he ▸ List.mem_map_of_mem Prod.fst hmem') h.1
      | tail _ hmem =>
          cases hb' with
          | head =>
              exact absurd (he ▸ List.mem_map_of_mem Prod.fst hmem) h.1
          | tail _ hmem' => exact nodup_key_eq rest h.2 b hmem b' hmem' he

/-- The bucket-building loop: on string-kind-tagged descriptors it
succeeds and produces tagged, duplicate-free, string-keyed buckets
containing every processed descriptor and every earlier bucket
member. -/
theorem build_buckets_spec :
    ∀ (all : List Py) (bs : List (Py × List Py)),
      (∀ d ∈ all, ∃ k : String, dget d "type_kind" = some (.str k)) →
      (∀ b ∈ bs, ∀ x ∈ b.2, dget x "type_kind" = some b.1) →
      (bs.map Prod.fst).Nodup →
      (∀ b ∈ bs, ∃ k : String, b.1 = Py.str k) →
      ∃ bs', Bundle.build_buckets bs all = .ok bs'
        ∧ (∀ b ∈ bs', ∀ x ∈ b.2, dget x "type_kind" = some b.1)
        ∧ (bs'.map Prod.fst).Nodup
        ∧ (∀ b ∈ bs', ∃ k : String, b.1 = Py.str k)
        ∧ (∀ b ∈ bs, ∃ b' ∈ bs', b.1 = b'.1 ∧ ∀ x ∈ b.2, x ∈ b'.2)
        ∧ (∀ d ∈ all, ∃ b' ∈ bs', d ∈ b'.2)
  | [], bs => by
      intro _ htag hnd hkeys
      exact ⟨bs, rfl, htag, hnd, hkeys,
        fun b hb => ⟨b, hb, rfl, fun x hx => hx⟩,
        fun d hd => absurd hd (List.not_mem_nil d)⟩
  | d0 :: rest, bs => by
      intro hall htag hnd hkeys
      obtain ⟨k, hk⟩ := hall d0 (List.mem_cons_self _ _)
      obtain ⟨bs', hrun, htag', hnd', hkeys', hpres, hmem⟩ :=
        build_buckets_spec rest (Bundle.addBucket bs (Py.str k) d0)
          (fun d hd => hall d (List.mem_cons_of_mem _ hd))
          (addBucket_tagged (Py.str k) d0 hk bs htag)
          (addBucket_nodup (Py.str k) d0 bs hnd)
          (by
            intro b hb
            cases mem_keys_addBucket (Py.str k) d0 bs b.1
                (List.mem_map_of_mem Prod.fst hb) with
            | inl hold =>
                obtain ⟨b0, hb0, he0⟩ := List.mem_map.mp hold
                obtain ⟨k0, hk0⟩ := hkeys b0 hb0
                exact ⟨k0, he0 ▸ hk0⟩
            | inr hnew => exact ⟨k, hnew⟩)
      refine ⟨bs', ?_, htag', hnd', hkeys', ?_, ?_⟩
      · rw [Bundle.build_buckets, hk]
        exact hrun
      · intro b hb
        obtain ⟨b1, hb1, he1, hsub1⟩ := addBucket_mem_preserved (Py.str k) d0 bs b hb
        obtain ⟨b', hb', he', hsub'⟩ := hpres b1 hb1
        exact ⟨b', hb', he1.trans he', fun x hx => hsub' x (hsub1 x hx)⟩
      · intro d hd
        cases hd with
        | head =>
            obtain ⟨b1, hb1, _, hdin⟩ := addBucket_mem_new (Py.str k) d0 bs
            obtain ⟨b', hb', _, hsub'⟩ := hpres b1 hb1
            exact ⟨b', hb', hsub' d0 hdin⟩
        | tail _ hmem2 => exact hmem d hmem2

/-- A bucket file name always ends in .json. -/
theorem strEndsWith_sjson (s : String) :
    strEndsWith (s ++ "s.json") ".json" = true := by
  obtain ⟨ls⟩ := s
  show (((ls ++ ['s', '.', 'j', 's', 'o', 'n']).reverse).take 5
      == ['n', 'o', 's', 'j', '.']) = true
  rw [List.reverse_append]
  rw [List.take_append_of_le_length (by simp)]
  rfl

/-- A bucket file name is never the manifest name schema.json. -/
theorem sjson_ne_schema (s : String) :
    ((s ++ "s.json") == "schema.json") = false := by
  rw [beq_eq_false_iff_ne]
  intro h
  obtain ⟨ls⟩ := s
  have h2 : (ls ++ ['s', '.', 'j', 's', 'o', 'n']).reverse
      = (['s', 'c', 'h', 'e', 'm', 'a', '.', 'j', 's', 'o', 'n'] : List Char).reverse :=
    congrArg (fun t : String => t.data.reverse) h
  rw [List.reverse_append] at h2
  simp at h2

/-- The bucket writer: on string-keyed buckets it writes one file per
bucket, named from the lower-cased kind, holding that bucket's list. -/
theorem write_buckets_spec :
    ∀ bs : List (Py × List Py),
      (∀ b ∈ bs, ∃ k : String, b.1 = Py.str k) →
      ∃ files, Bundle.write_buckets bs = .ok files
        ∧ (∀ b ∈ bs, ∀ k : String, b.1 = Py.str k →
             (pyLowerStr k ++ "s.json", Py.list b.2) ∈ files)
        ∧ (∀ f ∈ files, ∃ s : String, f.1 = s ++ "s.json")
  | [] => by
      intro _
      exact ⟨[], rfl, fun b hb => absurd hb (List.not_mem_nil b),
        fun f hf => absurd hf (List.not_mem_nil f)⟩
  | (k0, items) :: rest => by
      intro hstr
      obtain ⟨k, hk⟩ := hstr (k0, items) (List.mem_cons_self _ _)
      obtain ⟨files, hrun, hmem, hshape⟩ := write_buckets_spec rest
        (fun b hb => hstr b (List.mem_cons_of_mem _ hb))
      refine ⟨(pyLowerStr k ++ "s.json", Py.list items) :: files, ?_, ?_, ?_⟩
      · rw [Bundle.write_buckets]
        simp only at hk
        rw [hk]
        show (match Bundle.write_buckets rest with
          | Except.error e => Except.error e
          | Except.ok files =>
              Except.ok ((pyLowerStr k ++ "s.json", Py.list items) :: files))
            = _
        rw [hrun]
      · intro b hb k' hk'
        cases hb with
        | head =>
            simp only at hk'
            rw [hk'] at hk
            cases Py.str.inj hk
            exact List.mem_cons_self _ _
        | tail _ hmem2 =>
            exact List.mem_cons_of_mem _ (hmem b hmem2 k' hk')
      · intro f hf
        cases hf with
        | head => exact ⟨pyLowerStr k, rfl⟩
        | tail _ hf2 => exact hshape f hf2

/-- C8: every descriptor the bundle driver generates lands in exactly
one bucket, the one keyed by its type_kind string; that bucket is
written to the file named from the kind lower-cased with s and .json
appended; and the manifest's type_files list (the directory re-scan
filtered of schema.json) names exactly the files written, with no
extras and no omissions. -/
theorem C8_bundle_buckets_manifest :
    ∀ (rows : List Row) (all_desc : List Py),
      Bundle.convert_rows rows = .ok all_desc →
      ∃ bs files,
        Bundle.descriptor_buckets all_desc = .ok bs
        ∧ Bundle.write_buckets bs = .ok files
        ∧ (∀ d ∈ all_desc, ∃ (k : String) (items : List Py),
             dget d "type_kind" = some (.str k)
             ∧ (Py.str k, items) ∈ bs ∧ d ∈ items
             ∧ (∀ b ∈ bs, d ∈ b.2 → b = (Py.str k, items))
             ∧ (pyLowerStr k ++ "s.json", Py.list items) ∈ files)
        ∧ Bundle.manifest_type_files files = files.map Prod.fst := by
  intro rows all_desc hconv
  have hkinds := Bundle.convert_rows_kinds rows all_desc hconv
  obtain ⟨bs, hrun, htag, hnd, hkeys, _, hmem⟩ := build_buckets_spec all_desc []
    hkinds (fun b hb => absurd hb (List.not_mem_nil b)) (by simp)
    (fun b hb => absurd hb (List.not_mem_nil b))
  obtain ⟨files, hwrite, hfmem, hfshape⟩ := write_buckets_spec bs hkeys
  refine ⟨bs, files, hrun, hwrite, ?_, ?_⟩
  · intro d hd
    obtain ⟨k, hk⟩ := hkinds d hd
    obtain ⟨b, hb, hdin⟩ := hmem d hd
    have hb1 : b.1 = Py.str k := by
      have h1 := htag b hb d hdin
      rw [hk] at h1
      exact (Option.some.inj h1).symm
    have hbeta : b = (Py.str k, b.2) := by rw [← hb1]
    refine ⟨k, b.2, hk, hbeta ▸ hb, hdin, ?_, hfmem b hb k hb1⟩
    intro b' hb' hdin'
    have hb1' : b'.1 = Py.str k := by
      have h1 := htag b' hb' d hdin'
      rw [hk] at h1
      exact (Option.some.inj h1).symm
    have hbb : b' = b := nodup_key_eq bs hnd b' hb' b hb (by rw [hb1', hb1])
    rw [hbb, ← hb1]
  · unfold Bundle.manifest_type_files
    refine List.filter_eq_self.mpr ?_
    intro n hn
    obtain ⟨f, hf, he⟩ := List.mem_map.mp hn
    obtain ⟨s, hs⟩ := hfshape f hf
    rw [← he, hs]
    rw [strEndsWith_sjson, sjson_ne_schema]
    rfl

/-- The descriptor the bundle pipeline produces for `holonRowNoLists`. -/
def w2BundleDescriptor : Py :=
  .dict
    [("type_kind", .str "HolonType"),
     ("type_name", .str "W2"),
     ("described_by", .dict [("$ref", .dict [("type_name", .str "HolonType")])]),
     ("spec", .dict
       [("descriptor_name", .str "W2Descriptor"),
        ("label", .str ""),
        ("description", .str ""),
        ("is_dependent", .bool false),
        ("is_value_type", .bool false),
        ("described_by", .dict [("$ref", .dict [("type_name", .str "HolonType")])]),
        ("is_subtype_of", Py.none),
        ("properties", .list []),
        ("key_properties", .list []),
        ("type_name", .str "W2")])]

/-- Witness for C8 at a concrete one-row run. -/
theorem C8_bundle_buckets_manifest_witness :
    Bundle.convert_rows [holonRowNoLists] = .ok [w2BundleDescriptor]
    ∧ (∃ bs files,
        Bundle.descriptor_buckets [w2BundleDescriptor] = .ok bs
        ∧ Bundle.write_buckets bs = .ok files
        ∧ (∀ d ∈ [w2BundleDescriptor], ∃ (k : String) (items : List Py),
             dget d "type_kind" = some (.str k)
             ∧ (Py.str k, items) ∈ bs ∧ d ∈ items
             ∧ (∀ b ∈ bs, d ∈ b.2 → b = (Py.str k, items))
             ∧ (pyLowerStr k ++ "s.json", Py.list items) ∈ files)
        ∧ Bundle.manifest_type_files files = files.map Prod.fst) :=
  ⟨rfl, C8_bundle_buckets_manifest [holonRowNoLists] [w2BundleDescriptor] rfl⟩
